import Mathlib

/-!
# Multi-GPU copy versus pass-through benchmark (`main.c`)

A shallow embedding of `main.c`: `setup_benchmark`, `teardown_benchmark`,
`measure_benchmark`, `process_shared_buffer`, `execute_pass_through`,
`execute_copy` and `main`.

The program is modelled by explicit state passing.  The state of the process
(`Proc`) holds the trace of library calls issued by the main thread, a counter
that names the blocks handed out by the allocator and by the OpenCL object
constructors, and a flag that is cleared when the process is terminated.  Each
worker thread carries the list of device operations it issues.

Conventions.

* `guint` arithmetic is done modulo `2 ^ 32`; `gsize` is 64 bits wide, so a
  product of a `guint` and a `sizeof` never wraps.
* A pointer or handle is a natural number, `0` is `NULL`.  Every allocation
  request (`g_malloc0`, `clCreateKernel`, `clCreateBuffer`) takes the next
  unused name, so two blocks that are both live never share a name.
  `g_malloc0 (0)` returns `NULL` and `g_free (NULL)` does nothing, as in glib.
* In the traces of the two strategies, a command queue, a kernel or a device
  buffer is named by the slot of the array it is read from
  (`cmd_queues[j]`, `kernels[j]`, `dev_data_in[j]`, `dev_data_out[j]`) and a host
  image by its slot in `host_data`.
* `for (i = 0; i < n; i++) body` is `forLoop n body`.
* The statuses returned by the OpenCL calls are inputs (`Env`, `ExecEnv`,
  `WorkerEnv`).  A terminated process issues no further call.  When a
  `CHECK_ERROR` inside a worker terminates the process, the main thread is
  taken to run until the join of that worker, which is the latest point it can
  reach.
* Printing, the timer of `measure_benchmark` and the parsing of the options are
  left out.
-/

namespace OclCopyVsRef

/-! ## Integers, statuses, sizes -/

abbrev cl_int := Int

def CL_SUCCESS : cl_int := 0

/-- The number of values of a `guint`. -/
def GUINT_MOD : Nat := 2 ^ 32

def sizeof_gfloat : Nat := 4

def sizeof_pointer : Nat := 8

def sizeof_Benchmark : Nat := 120

/-- Modelled from the spec: the macro `CHECK_ERROR` of `ocl.h`, which is not part of the
sources at hand.  The spec makes every non-success status of a checked call fatal to the
whole process.  The value is `true` when the process is terminated. -/
def CHECK_ERROR (errcode : cl_int) : Bool := errcode != CL_SUCCESS

/-- The loop `for (i = 0; i < n; i++) body`, the loop body acting on the state. -/
def forLoop {σ : Type} (n : Nat) (body : Nat → σ → σ) (s : σ) : σ :=
  (List.range n).foldl (fun s i => body i s) s

/-! ## Data model -/

/-- The struct `Settings`: `gint num_images; guint width; guint height`. -/
structure Settings where
  num_images : Int
  width : Nat
  height : Nat

/-- Modelled from the spec: the struct `opencl_desc` of `ocl.h`, the device-context
collaborator.  Only the device count is needed: the command queues and the context are
named by slot. -/
structure opencl_desc where
  num_devices : Nat

/-- A device buffer, named by the array and slot it is read from. -/
inductive MemRef
  | dev_data_in (index : Nat)
  | dev_data_out (index : Nat)
  deriving DecidableEq, Repr

/-- The OpenCL calls of a worker thread. -/
inductive DevOp
  | clSetKernelArg (kernel : Nat) (arg_index : Nat) (arg_value : MemRef)
  | clEnqueueNDRangeKernel (cmd_queue : Nat) (kernel : Nat) (work_dim : Nat)
      (global_work_offset : Option (Nat × Nat)) (global_work_size : Nat × Nat)
      (local_work_size : Option (Nat × Nat))
  | clWaitForEvents (num_events : Nat) (result : cl_int)
  deriving DecidableEq, Repr

/-- The struct `ThreadLocalData` (the `benchmark` field is the one benchmark of the run). -/
structure ThreadLocalData where
  thread_id : Nat
  data_in_index : Nat
  deriving DecidableEq, Repr

/-- A thread made by `g_thread_create`: the round (image index) in which it was made, the
data it was given, the device operations its function issues, and whether its function
returns (it does not when a `CHECK_ERROR` inside it terminates the process). -/
structure GThread where
  round : Nat
  data : ThreadLocalData
  ops : List DevOp
  returned : Bool
  deriving DecidableEq, Repr

/-- The calls issued by the main thread. -/
inductive Ev
  | g_malloc0 (ptr : Nat) (n_bytes : Nat)
  | g_free (ptr : Nat)
  | clCreateKernel (kernel : Nat)
  | clCreateBuffer (mem : Nat) (size : Nat)
  | clReleaseMemObject (mem : Nat)
  | ocl_free
  | call (name : String)
  | null_dereference
  | clEnqueueWriteBuffer (cmd_queue : Nat) (buffer : Nat) (cb : Nat) (image : Nat)
  | g_thread_create (thread : GThread)
  | g_thread_join (thread : GThread)
  deriving DecidableEq, Repr

/-- A heap array: the pointer to the block and the value held in each slot. -/
structure Arr (α : Type) where
  base : Nat
  elem : Nat → α

/-- The assignment `arr[i] = v`. -/
def Arr.set {α : Type} (a : Arr α) (i : Nat) (v : α) : Arr α :=
  { a with elem := Function.update a.elem i v }

/-- A block of floats: its address, the size asked of the allocator, and the indices that
were assigned to, in program order. -/
structure FloatBlock where
  ptr : Nat
  n_bytes : Nat
  stored : List Nat

/-- The struct `Benchmark`; `self` is the address of the struct itself. -/
structure Benchmark where
  self : Nat
  settings : Settings
  num_images : Nat
  image_size : Nat
  host_data : Arr FloatBlock
  single_result : Arr Nat
  multi_result : Arr Nat
  dev_data_in : Arr Nat
  dev_data_out : Arr Nat
  events : Nat
  read_events : Nat
  write_events : Nat
  kernels : Arr Nat
  ocl : opencl_desc
  global_work_size : Nat × Nat

/-- The statuses returned to one worker thread. -/
structure WorkerEnv where
  set_arg0 : cl_int
  set_arg1 : cl_int
  enqueue : cl_int
  wait : cl_int

/-- The statuses returned during one strategy run: `write i j` to the upload of image `i`
on queue `j`, `worker i j` to the worker of device `j` in round `i`. -/
structure ExecEnv where
  write : Nat → Nat → cl_int
  worker : Nat → Nat → WorkerEnv

/-- The environment of a run of `main`: the program handle returned by `ocl_get_program`
(`0` is `NULL`) and the status of every OpenCL call. -/
structure Env where
  program : Nat
  create_kernel : Nat → cl_int
  create_in : Nat → cl_int
  create_out : Nat → cl_int
  copy : ExecEnv
  pass_through : ExecEnv
  release_in : Nat → cl_int
  release_out : Nat → cl_int

/-! ## The process -/

/-- The state of the process: `alive` is cleared when the process is terminated, `next`
is the name that the next allocation request takes, `trace` is the list of calls issued
so far. -/
structure Proc where
  alive : Bool
  next : Nat
  trace : List Ev

def Proc.init : Proc := ⟨true, 1, []⟩

/-- Record a call; a terminated process issues none. -/
def Proc.emit (p : Proc) (e : Ev) : Proc :=
  if p.alive then { p with trace := p.trace ++ [e] } else p

/-- The statement `CHECK_ERROR (errcode)`. -/
def Proc.check (p : Proc) (errcode : cl_int) : Proc :=
  { p with alive := p.alive && !CHECK_ERROR errcode }

/-- The process is killed (a fault). -/
def Proc.die (p : Proc) : Proc := { p with alive := false }

/-- The glib call `g_malloc0 (n_bytes)`: `NULL` for a size of zero, a fresh zero-filled
block otherwise.  The request uses up a name in both cases. -/
def g_malloc0 (n_bytes : Nat) (p : Proc) : Nat × Proc :=
  if n_bytes = 0 then (0, { p with next := p.next + 1 })
  else (p.next, { p.emit (Ev.g_malloc0 p.next n_bytes) with next := p.next + 1 })

/-- The glib call `g_free (ptr)`: nothing happens for `NULL`. -/
def g_free (ptr : Nat) (p : Proc) : Proc :=
  if ptr = 0 then p else p.emit (Ev.g_free ptr)

/-- The call `clCreateKernel (program, "nlm", &errcode)`. -/
def clCreateKernel (p : Proc) : Nat × Proc :=
  (p.next, { p.emit (Ev.clCreateKernel p.next) with next := p.next + 1 })

/-- The call `clCreateBuffer (context, CL_MEM_READ_WRITE, size, NULL, &errcode)`. -/
def clCreateBuffer (size : Nat) (p : Proc) : Nat × Proc :=
  (p.next, { p.emit (Ev.clCreateBuffer p.next size) with next := p.next + 1 })

/-! ## `setup_benchmark` -/

/-- The block returned by `g_malloc0 (sizeof (Benchmark))`, every field zero, after the
assignments `b->ocl = ocl` and `b->settings = settings` (lines 73 to 75). -/
def Benchmark.zero (self : Nat) (ocl : opencl_desc) (settings : Settings) : Benchmark :=
  { self := self, settings := settings, num_images := 0, image_size := 0,
    host_data := ⟨0, fun _ => ⟨0, 0, []⟩⟩, single_result := ⟨0, fun _ => 0⟩,
    multi_result := ⟨0, fun _ => 0⟩, dev_data_in := ⟨0, fun _ => 0⟩,
    dev_data_out := ⟨0, fun _ => 0⟩, events := 0, read_events := 0, write_events := 0,
    kernels := ⟨0, fun _ => 0⟩, ocl := ocl, global_work_size := (0, 0) }

/-- Line 87: `settings->num_images < 0 ? ocl->num_devices * 16 : settings->num_images`,
stored in the `guint` field `num_images`. -/
def resolve_num_images (ocl : opencl_desc) (settings : Settings) : Nat :=
  if settings.num_images < 0 then (ocl.num_devices * 16) % GUINT_MOD
  else settings.num_images.toNat

/-- Line 88: `settings->width * settings->height * sizeof (gfloat)`; the two `guint`
factors are multiplied as `guint`, the product is widened to `gsize`. -/
def compute_image_size (settings : Settings) : Nat :=
  ((settings.width * settings.height) % GUINT_MOD) * sizeof_gfloat

/-- Lines 73 to 78: the struct itself and the array `kernels`. -/
def alloc_benchmark (ocl : opencl_desc) (settings : Settings) (p : Proc) : Benchmark × Proc :=
  let r := g_malloc0 sizeof_Benchmark p
  let k := g_malloc0 (ocl.num_devices * sizeof_pointer) r.2
  ({ Benchmark.zero r.1 ocl settings with kernels := ⟨k.1, fun _ => 0⟩ }, k.2)

/-- Lines 80 to 83: one kernel for each device. -/
def create_kernels (env : Env) (ocl : opencl_desc) (s : Benchmark × Proc) : Benchmark × Proc :=
  forLoop ocl.num_devices (fun i s =>
    let r := clCreateKernel s.2
    ({ s.1 with kernels := s.1.kernels.set i r.1 }, r.2.check (env.create_kernel i))) s

/-- Lines 85 to 88: the work size, the number of images and the size of an image. -/
def set_sizes (ocl : opencl_desc) (b : Benchmark) : Benchmark :=
  { b with
    global_work_size := (b.settings.width, b.settings.height)
    num_images := resolve_num_images ocl b.settings
    image_size := compute_image_size b.settings }

/-- Lines 89 to 91: the arrays `single_result`, `multi_result` and `host_data`. -/
def alloc_host_arrays (s : Benchmark × Proc) : Benchmark × Proc :=
  let b := s.1
  let r := g_malloc0 (b.num_images * sizeof_pointer) s.2
  let m := g_malloc0 (b.num_images * sizeof_pointer) r.2
  let h := g_malloc0 (b.num_images * sizeof_pointer) m.2
  ({ b with
     single_result := ⟨r.1, fun _ => 0⟩
     multi_result := ⟨m.1, fun _ => 0⟩
     host_data := ⟨h.1, fun _ => ⟨0, 0, []⟩⟩ }, h.2)

/-- Lines 92 to 94: the arrays `events`, `read_events` and `write_events`. -/
def alloc_event_arrays (s : Benchmark × Proc) : Benchmark × Proc :=
  let b := s.1
  let e := g_malloc0 (b.num_images * sizeof_pointer) s.2
  let r := g_malloc0 (b.num_images * sizeof_pointer) e.2
  let w := g_malloc0 (b.num_images * sizeof_pointer) r.2
  ({ b with events := e.1, read_events := r.1, write_events := w.1 }, w.2)

/-- Lines 103 and 104: the fill loop of host image `i`. -/
def fill_image (i : Nat) (b : Benchmark) : Benchmark :=
  forLoop ((b.settings.width * b.settings.height) % GUINT_MOD) (fun j b =>
    let blk := b.host_data.elem i
    { b with host_data := b.host_data.set i { blk with stored := blk.stored ++ [j] } }) b

/-- Lines 98 to 105: the host image and the two result arrays of every image. -/
def create_images (s : Benchmark × Proc) : Benchmark × Proc :=
  forLoop s.1.num_images (fun i s =>
    let b := s.1
    let h := g_malloc0 b.image_size s.2
    let b := { b with host_data := b.host_data.set i ⟨h.1, b.image_size, []⟩ }
    let r := g_malloc0 b.image_size h.2
    let b := { b with single_result := b.single_result.set i r.1 }
    let m := g_malloc0 b.image_size r.2
    let b := { b with multi_result := b.multi_result.set i m.1 }
    (fill_image i b, m.2)) s

/-- Lines 107 and 108: the arrays `dev_data_in` and `dev_data_out`. -/
def alloc_device_arrays (ocl : opencl_desc) (s : Benchmark × Proc) : Benchmark × Proc :=
  let b := s.1
  let i := g_malloc0 (ocl.num_devices * sizeof_pointer) s.2
  let o := g_malloc0 (ocl.num_devices * sizeof_pointer) i.2
  ({ b with dev_data_in := ⟨i.1, fun _ => 0⟩, dev_data_out := ⟨o.1, fun _ => 0⟩ }, o.2)

/-- Lines 110 to 115: the input and the output buffer of every device. -/
def create_buffers (env : Env) (ocl : opencl_desc) (s : Benchmark × Proc) : Benchmark × Proc :=
  forLoop ocl.num_devices (fun i s =>
    let b := s.1
    let r := clCreateBuffer b.image_size s.2
    let b := { b with dev_data_in := b.dev_data_in.set i r.1 }
    let p := r.2.check (env.create_in i)
    let o := clCreateBuffer b.image_size p
    let b := { b with dev_data_out := b.dev_data_out.set i o.1 }
    (b, o.2.check (env.create_out i))) s

/-- The function `setup_benchmark`. -/
def setup_benchmark (env : Env) (ocl : opencl_desc) (settings : Settings) (p : Proc) :
    Option Benchmark × Proc :=
  if env.program = 0 then
    (none, p.emit Ev.ocl_free)
  else
    let s := alloc_benchmark ocl settings p
    let s := create_kernels env ocl s
    let s := (set_sizes ocl s.1, s.2)
    let s := alloc_host_arrays s
    let s := alloc_event_arrays s
    let s := create_images s
    let s := alloc_device_arrays ocl s
    let s := create_buffers env ocl s
    (some s.1, s.2)

/-! ## `teardown_benchmark` -/

/-- Lines 123 to 127. -/
def free_images (b : Benchmark) (p : Proc) : Proc :=
  forLoop b.num_images (fun i p =>
    let p := g_free (b.host_data.elem i).ptr p
    let p := g_free (b.single_result.elem i) p
    g_free (b.multi_result.elem i) p) p

/-- Lines 129 to 132. -/
def release_buffers (env : Env) (b : Benchmark) (p : Proc) : Proc :=
  forLoop b.ocl.num_devices (fun i p =>
    let p := (p.emit (Ev.clReleaseMemObject (b.dev_data_in.elem i))).check (env.release_in i)
    (p.emit (Ev.clReleaseMemObject (b.dev_data_out.elem i))).check (env.release_out i)) p

/-- The function `teardown_benchmark`; reading a field through `NULL` is a fault. -/
def teardown_benchmark (env : Env) (benchmark : Option Benchmark) (p : Proc) : Proc :=
  match benchmark with
  | none => (p.emit Ev.null_dereference).die
  | some b =>
    let p := free_images b p
    let p := release_buffers env b p
    let p := g_free b.host_data.base p
    let p := g_free b.single_result.base p
    let p := g_free b.multi_result.base p
    let p := g_free b.dev_data_in.base p
    let p := g_free b.dev_data_out.base p
    let p := g_free b.events p
    let p := g_free b.read_events p
    let p := g_free b.write_events p
    g_free b.self p

/-! ## The worker and the two strategies -/

/-- The function `process_shared_buffer`: the device operations issued by the worker, and
whether it returns.  The status of `clWaitForEvents` is not passed to `CHECK_ERROR`. -/
def process_shared_buffer (w : WorkerEnv) (benchmark : Benchmark) (tld : ThreadLocalData) :
    List DevOp × Bool :=
  let idx := tld.thread_id
  let kernel := idx
  let cmd_queue := idx
  let dev_data_in := MemRef.dev_data_in tld.data_in_index
  let dev_data_out := MemRef.dev_data_out idx
  let op0 := DevOp.clSetKernelArg kernel 0 dev_data_in
  let op1 := DevOp.clSetKernelArg kernel 1 dev_data_out
  let op2 := DevOp.clEnqueueNDRangeKernel cmd_queue kernel 2 none
    benchmark.global_work_size none
  if CHECK_ERROR w.set_arg0 then ([op0], false)
  else if CHECK_ERROR w.set_arg1 then ([op0, op1], false)
  else if CHECK_ERROR w.enqueue then ([op0, op1, op2], false)
  else ([op0, op1, op2, DevOp.clWaitForEvents 1 w.wait], true)

/-- The thread that runs `process_shared_buffer (tld)` in round `i`. -/
def new_thread (env : ExecEnv) (b : Benchmark) (i : Nat) (tld : ThreadLocalData) : GThread :=
  let r := process_shared_buffer (env.worker i tld.thread_id) b tld
  ⟨i, tld, r.1, r.2⟩

/-- The frame of `execute_copy` and `execute_pass_through`: the process and the local
array `threads` (`none` is a slot not yet written). -/
structure Frame where
  proc : Proc
  threads : Nat → Option GThread

/-- The checked blocking upload
`CHECK_ERROR (clEnqueueWriteBuffer (cmd_queues[q], dev_data_in[d], CL_TRUE, 0, image_size, host_data[i], 0, NULL, NULL))`. -/
def Frame.clEnqueueWriteBuffer (f : Frame) (errcode : cl_int) (q d cb i : Nat) : Frame :=
  { f with proc := (f.proc.emit (Ev.clEnqueueWriteBuffer q d cb i)).check errcode }

/-- The statement `threads[j] = g_thread_create (&process_shared_buffer, &tld[j], TRUE, NULL)`
in round `i`. -/
def Frame.g_thread_create (f : Frame) (env : ExecEnv) (b : Benchmark) (i j : Nat)
    (tld : ThreadLocalData) : Frame :=
  let t := new_thread env b i tld
  { proc := f.proc.emit (Ev.g_thread_create t), threads := Function.update f.threads j (some t) }

/-- The statement `g_thread_join (threads[j])`: it returns once the thread function has
returned; when that function terminated the process, the main thread ends here at the
latest. -/
def Frame.g_thread_join (f : Frame) (j : Nat) : Frame :=
  match f.threads j with
  | some t =>
    if t.returned then { f with proc := f.proc.emit (Ev.g_thread_join t) }
    else { f with proc := f.proc.die }
  | none => { f with proc := f.proc.die }

/-- One round of `execute_pass_through` (lines 196 to 214), for image `i`.  The upload reads
`cmd_queues[0]` and `dev_data_in[0]`, which exist when there is at least one device; with
no device that read is out of bounds in the source, a case the model does not represent. -/
def pass_through_round (env : ExecEnv) (b : Benchmark) (i : Nat) (f : Frame) : Frame :=
  let f := f.clEnqueueWriteBuffer (env.write i 0) 0 0 b.image_size i
  let f := forLoop b.ocl.num_devices (fun j f =>
    f.g_thread_create env b i j ⟨j, 0⟩) f
  forLoop b.ocl.num_devices (fun j f => f.g_thread_join j) f

/-- The function `execute_pass_through`. -/
def execute_pass_through (env : ExecEnv) (benchmark : Option Benchmark) (p : Proc) : Proc :=
  match benchmark with
  | none => (p.emit Ev.null_dereference).die
  | some b => (forLoop b.num_images (pass_through_round env b) ⟨p, fun _ => none⟩).proc

/-- One round of `execute_copy` (lines 225 to 239), for image `i`. -/
def copy_round (env : ExecEnv) (b : Benchmark) (i : Nat) (f : Frame) : Frame :=
  let f := forLoop b.ocl.num_devices (fun j f =>
    let f := f.clEnqueueWriteBuffer (env.write i j) j j b.image_size i
    f.g_thread_create env b i j ⟨j, j⟩) f
  forLoop b.ocl.num_devices (fun j f => f.g_thread_join j) f

/-- The function `execute_copy`. -/
def execute_copy (env : ExecEnv) (benchmark : Option Benchmark) (p : Proc) : Proc :=
  match benchmark with
  | none => (p.emit Ev.null_dereference).die
  | some b => (forLoop b.num_images (copy_round env b) ⟨p, fun _ => none⟩).proc

/-! ## `measure_benchmark` and `main` -/

/-- The function `measure_benchmark`: the call `func (benchmark)`; `name` is the parameter
`prefix` of the source, the timer is left out. -/
def measure_benchmark (name : String) (func : Option Benchmark → Proc → Proc)
    (benchmark : Option Benchmark) (p : Proc) : Proc :=
  func benchmark (p.emit (Ev.call name))

/-- The function `main` after option parsing. -/
def main (env : Env) (ocl : opencl_desc) (settings : Settings) : Proc :=
  let s := setup_benchmark env ocl settings Proc.init
  let benchmark := s.1
  let p := measure_benchmark "Copy" (execute_copy env.copy) benchmark s.2
  let p := measure_benchmark "Pass-through" (execute_pass_through env.pass_through) benchmark p
  let p := teardown_benchmark env benchmark p
  p.emit Ev.ocl_free

/-- The environment in which every call succeeds. -/
def Env.success : Env :=
  { program := 1, create_kernel := fun _ => CL_SUCCESS, create_in := fun _ => CL_SUCCESS,
    create_out := fun _ => CL_SUCCESS,
    copy := ⟨fun _ _ => CL_SUCCESS, fun _ _ => ⟨CL_SUCCESS, CL_SUCCESS, CL_SUCCESS, CL_SUCCESS⟩⟩,
    pass_through := ⟨fun _ _ => CL_SUCCESS, fun _ _ => ⟨CL_SUCCESS, CL_SUCCESS, CL_SUCCESS, CL_SUCCESS⟩⟩,
    release_in := fun _ => CL_SUCCESS, release_out := fun _ => CL_SUCCESS }

/-! ## Definitions used to state the properties -/

/-- Every checked call of a strategy run returns `CL_SUCCESS`. -/
def ExecEnv.Succeeds (env : ExecEnv) : Prop :=
  (∀ i j, env.write i j = CL_SUCCESS) ∧
  ∀ i j, (env.worker i j).set_arg0 = CL_SUCCESS ∧ (env.worker i j).set_arg1 = CL_SUCCESS ∧
    (env.worker i j).enqueue = CL_SUCCESS

/-- The device operations of a worker none of whose checked calls fails. -/
def worker_ops (b : Benchmark) (tld : ThreadLocalData) (wait : cl_int) : List DevOp :=
  [DevOp.clSetKernelArg tld.thread_id 0 (MemRef.dev_data_in tld.data_in_index),
   DevOp.clSetKernelArg tld.thread_id 1 (MemRef.dev_data_out tld.thread_id),
   DevOp.clEnqueueNDRangeKernel tld.thread_id tld.thread_id 2 none b.global_work_size none,
   DevOp.clWaitForEvents 1 wait]

/-- The trace of the upload-and-spawn loop of `execute_copy` in round `i`, for the first
`n` devices. -/
def copy_spawn_trace (env : ExecEnv) (b : Benchmark) (i n : Nat) : List Ev :=
  (List.range n).flatMap (fun j =>
    [Ev.clEnqueueWriteBuffer j j b.image_size i, Ev.g_thread_create (new_thread env b i ⟨j, j⟩)])

/-- The trace of the spawn loop of `execute_pass_through` in round `i`. -/
def pass_spawn_trace (env : ExecEnv) (b : Benchmark) (i n : Nat) : List Ev :=
  (List.range n).map (fun j => Ev.g_thread_create (new_thread env b i ⟨j, 0⟩))

/-- The trace of a join loop over the threads `t 0`, ..., `t (n - 1)`. -/
def join_trace (t : Nat → GThread) (n : Nat) : List Ev :=
  (List.range n).map (fun j => Ev.g_thread_join (t j))

/-- The trace of one round of `execute_copy` when no checked call fails. -/
def copy_round_trace (env : ExecEnv) (b : Benchmark) (i : Nat) : List Ev :=
  copy_spawn_trace env b i b.ocl.num_devices
    ++ join_trace (fun j => new_thread env b i ⟨j, j⟩) b.ocl.num_devices

/-- The trace of one round of `execute_pass_through` when no checked call fails. -/
def pass_round_trace (env : ExecEnv) (b : Benchmark) (i : Nat) : List Ev :=
  Ev.clEnqueueWriteBuffer 0 0 b.image_size i :: (pass_spawn_trace env b i b.ocl.num_devices
    ++ join_trace (fun j => new_thread env b i ⟨j, 0⟩) b.ocl.num_devices)

/-- The trace of `execute_copy` when no checked call fails. -/
def copy_trace (env : ExecEnv) (b : Benchmark) : List Ev :=
  (List.range b.num_images).flatMap (copy_round_trace env b)

/-- The trace of `execute_pass_through` when no checked call fails. -/
def pass_trace (env : ExecEnv) (b : Benchmark) : List Ev :=
  (List.range b.num_images).flatMap (pass_round_trace env b)

/-- A host-to-device upload. -/
def Ev.isUpload : Ev → Bool
  | Ev.clEnqueueWriteBuffer _ _ _ _ => true
  | _ => false

/-- The creation of a worker thread. -/
def Ev.isSpawn : Ev → Bool
  | Ev.g_thread_create _ => true
  | _ => false

/-- The join of a worker thread. -/
def Ev.isJoin : Ev → Bool
  | Ev.g_thread_join _ => true
  | _ => false

/-- The round (image index) an event of a strategy run belongs to. -/
def Ev.round : Ev → Nat
  | Ev.clEnqueueWriteBuffer _ _ _ i => i
  | Ev.g_thread_create t => t.round
  | Ev.g_thread_join t => t.round
  | _ => 0

/-- The uploads of a trace. -/
def uploads (t : List Ev) : List Ev := t.filter Ev.isUpload

/-- The uploads of round `i`. -/
def uploads_of (i : Nat) (t : List Ev) : List Ev :=
  t.filter (fun e => e.isUpload && e.round == i)

/-- The threads created in round `i`, in the order of creation. -/
def spawned (i : Nat) (t : List Ev) : List GThread :=
  t.filterMap (fun e => match e with
    | Ev.g_thread_create th => if th.round = i then some th else none
    | _ => none)

/-- The threads joined in round `i`, in the order of the joins. -/
def joined (i : Nat) (t : List Ev) : List GThread :=
  t.filterMap (fun e => match e with
    | Ev.g_thread_join th => if th.round = i then some th else none
    | _ => none)

/-- The lexicographic order on triples. -/
def lex_lt (a b : Nat × Nat × Nat) : Prop :=
  a.1 < b.1 ∨ (a.1 = b.1 ∧ (a.2.1 < b.2.1 ∨ (a.2.1 = b.2.1 ∧ a.2.2 < b.2.2)))

/-- The place of an event in a run of `execute_copy`: the round, the phase (upload and
spawn, then join), the place within the phase. -/
def copy_key : Ev → Nat × Nat × Nat
  | Ev.clEnqueueWriteBuffer _ d _ i => (i, 0, 2 * d)
  | Ev.g_thread_create t => (t.round, 0, 2 * t.data.thread_id + 1)
  | Ev.g_thread_join t => (t.round, 1, t.data.thread_id)
  | _ => (0, 0, 0)

/-- The place of an event in a run of `execute_pass_through`. -/
def pass_key : Ev → Nat × Nat × Nat
  | Ev.clEnqueueWriteBuffer _ _ _ i => (i, 0, 0)
  | Ev.g_thread_create t => (t.round, 0, t.data.thread_id + 1)
  | Ev.g_thread_join t => (t.round, 1, t.data.thread_id)
  | _ => (0, 0, 0)

/-- The property of a strategy run stated by the spec: in every round all uploads come
before any worker is spawned. -/
def UploadsPrecedeSpawns (t : List Ev) : Prop :=
  ∀ (p q : Nat) (s u : Ev), t[p]? = some s → t[q]? = some u → s.isSpawn = true →
    u.isUpload = true → s.round = u.round → q < p

/-- The upload of a round into the input buffer of device `d` comes before the worker of
device `d` is spawned in that round. -/
def OwnUploadPrecedesSpawn (t : List Ev) : Prop :=
  ∀ (p q : Nat) (th : GThread) (cq cb : Nat), t[p]? = some (Ev.g_thread_create th) →
    t[q]? = some (Ev.clEnqueueWriteBuffer cq th.data.thread_id cb th.round) → q < p

/-- In a round, the workers of the devices before `d` are created before the upload into
the input buffer of device `d` is issued. -/
def EarlierSpawnsPrecedeUpload (t : List Ev) : Prop :=
  ∀ (p q : Nat) (th : GThread) (cq d cb : Nat), t[p]? = some (Ev.g_thread_create th) →
    t[q]? = some (Ev.clEnqueueWriteBuffer cq d cb th.round) → th.data.thread_id < d → p < q

/-- The fork and join discipline of a strategy run over `n` rounds for `nd` devices: each
round creates one worker for each device index, joins exactly the workers it created,
every join of a round comes after every creation of that round, and every upload or
creation of a later round comes after every join of an earlier one. -/
def ForkJoin (nd n : Nat) (t : List Ev) : Prop :=
  (∀ i, i < n → (spawned i t).map (fun th => th.data.thread_id) = List.range nd) ∧
  (∀ i, i < n → joined i t = spawned i t) ∧
  (∀ (p q : Nat) (s j : Ev), t[p]? = some s → t[q]? = some j → s.isSpawn = true →
    j.isJoin = true → s.round = j.round → p < q) ∧
  (∀ (p q : Nat) (j e : Ev), t[p]? = some j → t[q]? = some e → j.isJoin = true →
    (e.isUpload = true ∨ e.isSpawn = true) → j.round < e.round → p < q)

/-- The benchmark that `setup_benchmark` builds when every call succeeds. -/
def benchmark_of (ocl : opencl_desc) (settings : Settings) : Benchmark :=
  (setup_benchmark Env.success ocl settings Proc.init).1.getD (Benchmark.zero 0 ocl settings)

/-- The pointer returned by `g_malloc0 (n_bytes)` when the next name is `nx`. -/
def malloc_ptr (nx n_bytes : Nat) : Nat := if n_bytes = 0 then 0 else nx

/-- The call recorded by `g_malloc0 (n_bytes)` when the next name is `nx`. -/
def malloc_ev (nx n_bytes : Nat) : List Ev :=
  if n_bytes = 0 then [] else [Ev.g_malloc0 nx n_bytes]

/-- The call recorded by `g_free (ptr)`. -/
def free_ev (ptr : Nat) : List Ev := if ptr = 0 then [] else [Ev.g_free ptr]

/-- The program was built and every object creation of `setup_benchmark` succeeds. -/
def Env.SetupSucceeds (env : Env) : Prop :=
  env.program ≠ 0 ∧ (∀ i, env.create_kernel i = CL_SUCCESS) ∧
  (∀ i, env.create_in i = CL_SUCCESS) ∧ (∀ i, env.create_out i = CL_SUCCESS)

/-- The benchmark returned by a successful `setup_benchmark` that starts with the next name
`nx`. -/
def setup_result (ocl : opencl_desc) (settings : Settings) (nx : Nat) : Benchmark :=
  { self := nx
    settings := settings
    num_images := resolve_num_images ocl settings
    image_size := compute_image_size settings
    host_data := ⟨malloc_ptr (nx + 2 + ocl.num_devices + 2)
        (resolve_num_images ocl settings * sizeof_pointer),
      fun j => if j < resolve_num_images ocl settings then
        ⟨malloc_ptr (nx + 2 + ocl.num_devices + 3 + 3 + 3 * j) (compute_image_size settings),
          compute_image_size settings,
          List.range ((settings.width * settings.height) % GUINT_MOD)⟩
        else ⟨0, 0, []⟩⟩
    single_result := ⟨malloc_ptr (nx + 2 + ocl.num_devices)
        (resolve_num_images ocl settings * sizeof_pointer),
      fun j => if j < resolve_num_images ocl settings then
        malloc_ptr (nx + 2 + ocl.num_devices + 3 + 3 + 3 * j + 1) (compute_image_size settings)
        else 0⟩
    multi_result := ⟨malloc_ptr (nx + 2 + ocl.num_devices + 1)
        (resolve_num_images ocl settings * sizeof_pointer),
      fun j => if j < resolve_num_images ocl settings then
        malloc_ptr (nx + 2 + ocl.num_devices + 3 + 3 + 3 * j + 2) (compute_image_size settings)
        else 0⟩
    dev_data_in := ⟨malloc_ptr
        (nx + 2 + ocl.num_devices + 3 + 3 + 3 * resolve_num_images ocl settings)
        (ocl.num_devices * sizeof_pointer),
      fun j => if j < ocl.num_devices then
        nx + 2 + ocl.num_devices + 3 + 3 + 3 * resolve_num_images ocl settings + 2 + 2 * j
        else 0⟩
    dev_data_out := ⟨malloc_ptr
        (nx + 2 + ocl.num_devices + 3 + 3 + 3 * resolve_num_images ocl settings + 1)
        (ocl.num_devices * sizeof_pointer),
      fun j => if j < ocl.num_devices then
        nx + 2 + ocl.num_devices + 3 + 3 + 3 * resolve_num_images ocl settings + 2 + 2 * j + 1
        else 0⟩
    events := malloc_ptr (nx + 2 + ocl.num_devices + 3)
      (resolve_num_images ocl settings * sizeof_pointer)
    read_events := malloc_ptr (nx + 2 + ocl.num_devices + 3 + 1)
      (resolve_num_images ocl settings * sizeof_pointer)
    write_events := malloc_ptr (nx + 2 + ocl.num_devices + 3 + 2)
      (resolve_num_images ocl settings * sizeof_pointer)
    kernels := ⟨malloc_ptr (nx + 1) (ocl.num_devices * sizeof_pointer),
      fun j => if j < ocl.num_devices then nx + 2 + j else 0⟩
    ocl := ocl
    global_work_size := (settings.width, settings.height) }

/-- The calls of a successful `setup_benchmark` that starts with the next name `nx`. -/
def setup_trace (ocl : opencl_desc) (settings : Settings) (nx : Nat) : List Ev :=
  ([Ev.g_malloc0 nx sizeof_Benchmark] ++ malloc_ev (nx + 1) (ocl.num_devices * sizeof_pointer))
  ++ (List.range ocl.num_devices).map (fun j => Ev.clCreateKernel (nx + 2 + j))
  ++ (malloc_ev (nx + 2 + ocl.num_devices) (resolve_num_images ocl settings * sizeof_pointer)
    ++ malloc_ev (nx + 2 + ocl.num_devices + 1) (resolve_num_images ocl settings * sizeof_pointer)
    ++ malloc_ev (nx + 2 + ocl.num_devices + 2) (resolve_num_images ocl settings * sizeof_pointer))
  ++ (malloc_ev (nx + 2 + ocl.num_devices + 3) (resolve_num_images ocl settings * sizeof_pointer)
    ++ malloc_ev (nx + 2 + ocl.num_devices + 3 + 1)
      (resolve_num_images ocl settings * sizeof_pointer)
    ++ malloc_ev (nx + 2 + ocl.num_devices + 3 + 2)
      (resolve_num_images ocl settings * sizeof_pointer))
  ++ (List.range (resolve_num_images ocl settings)).flatMap (fun j =>
      malloc_ev (nx + 2 + ocl.num_devices + 3 + 3 + 3 * j) (compute_image_size settings)
      ++ malloc_ev (nx + 2 + ocl.num_devices + 3 + 3 + 3 * j + 1) (compute_image_size settings)
      ++ malloc_ev (nx + 2 + ocl.num_devices + 3 + 3 + 3 * j + 2) (compute_image_size settings))
  ++ (malloc_ev (nx + 2 + ocl.num_devices + 3 + 3 + 3 * resolve_num_images ocl settings)
      (ocl.num_devices * sizeof_pointer)
    ++ malloc_ev (nx + 2 + ocl.num_devices + 3 + 3 + 3 * resolve_num_images ocl settings + 1)
      (ocl.num_devices * sizeof_pointer))
  ++ (List.range ocl.num_devices).flatMap (fun j =>
      [Ev.clCreateBuffer
          (nx + 2 + ocl.num_devices + 3 + 3 + 3 * resolve_num_images ocl settings + 2 + 2 * j)
          (compute_image_size settings),
        Ev.clCreateBuffer
          (nx + 2 + ocl.num_devices + 3 + 3 + 3 * resolve_num_images ocl settings + 2 + 2 * j + 1)
          (compute_image_size settings)])

/-- The number of names a successful `setup_benchmark` uses. -/
def setup_names (ocl : opencl_desc) (settings : Settings) : Nat :=
  2 + ocl.num_devices + 3 + 3 + 3 * resolve_num_images ocl settings + 2 + 2 * ocl.num_devices

/-- Every release of `teardown_benchmark` succeeds. -/
def Env.TeardownSucceeds (env : Env) : Prop :=
  (∀ i, env.release_in i = CL_SUCCESS) ∧ (∀ i, env.release_out i = CL_SUCCESS)

/-- Every checked call of a run of `main` succeeds. -/
def Env.Succeeds (env : Env) : Prop :=
  env.SetupSucceeds ∧ env.copy.Succeeds ∧ env.pass_through.Succeeds ∧ env.TeardownSucceeds

/-- The calls of `teardown_benchmark` when every release succeeds. -/
def teardown_trace (b : Benchmark) : List Ev :=
  (List.range b.num_images).flatMap (fun i =>
      free_ev (b.host_data.elem i).ptr ++ free_ev (b.single_result.elem i)
        ++ free_ev (b.multi_result.elem i))
  ++ (List.range b.ocl.num_devices).flatMap (fun i =>
      [Ev.clReleaseMemObject (b.dev_data_in.elem i), Ev.clReleaseMemObject (b.dev_data_out.elem i)])
  ++ (free_ev b.host_data.base ++ free_ev b.single_result.base ++ free_ev b.multi_result.base
    ++ free_ev b.dev_data_in.base ++ free_ev b.dev_data_out.base ++ free_ev b.events
    ++ free_ev b.read_events ++ free_ev b.write_events ++ free_ev b.self)

/-- The calls of a run of `main` in which every checked call succeeds. -/
def main_trace (env : Env) (ocl : opencl_desc) (settings : Settings) : List Ev :=
  setup_trace ocl settings 1
  ++ ([Ev.call "Copy"] ++ copy_trace env.copy (setup_result ocl settings 1))
  ++ ([Ev.call "Pass-through"] ++ pass_trace env.pass_through (setup_result ocl settings 1))
  ++ teardown_trace (setup_result ocl settings 1)
  ++ [Ev.ocl_free]

/-- Every checked call succeeds, every `clWaitForEvents` returns
`CL_EXEC_STATUS_ERROR_FOR_EVENTS_IN_WAIT_LIST` (-14). -/
def wait_failure : ExecEnv :=
  ⟨fun _ _ => CL_SUCCESS, fun _ _ => ⟨CL_SUCCESS, CL_SUCCESS, CL_SUCCESS, -14⟩⟩

/-- Every `clEnqueueNDRangeKernel` returns `CL_OUT_OF_RESOURCES` (-5), every other call
succeeds. -/
def enqueue_failure : ExecEnv :=
  ⟨fun _ _ => CL_SUCCESS, fun _ _ => ⟨CL_SUCCESS, CL_SUCCESS, -5, CL_SUCCESS⟩⟩

/-- The program cannot be built (`ocl_get_program` returns `NULL`), every other call
succeeds. -/
def program_failure : Env := { Env.success with program := 0 }

/-- The block returned by a `g_malloc0` call. -/
def Ev.allocated : Ev → Option Nat
  | Ev.g_malloc0 p _ => some p
  | _ => none

/-- The buffer returned by a `clCreateBuffer` call. -/
def Ev.created : Ev → Option Nat
  | Ev.clCreateBuffer m _ => some m
  | _ => none

/-- The block given to a `g_free` call. -/
def Ev.freed : Ev → Option Nat
  | Ev.g_free p => some p
  | _ => none

/-- The buffer given to a `clReleaseMemObject` call. -/
def Ev.released : Ev → Option Nat
  | Ev.clReleaseMemObject m => some m
  | _ => none

/-- The block or handle returned by an allocating call of any kind. -/
def Ev.named : Ev → Option Nat
  | Ev.g_malloc0 p _ => some p
  | Ev.clCreateKernel k => some k
  | Ev.clCreateBuffer m _ => some m
  | _ => none

/-- The blocks allocated with `g_malloc0` in a trace, one entry for each call. -/
def mallocs (t : List Ev) : List Nat := t.filterMap Ev.allocated

/-- The buffers created with `clCreateBuffer` in a trace, one entry for each call. -/
def buffers (t : List Ev) : List Nat := t.filterMap Ev.created

/-- The blocks freed with `g_free` in a trace, one entry for each call. -/
def frees (t : List Ev) : List Nat := t.filterMap Ev.freed

/-- The buffers released with `clReleaseMemObject` in a trace, one entry for each call. -/
def releases (t : List Ev) : List Nat := t.filterMap Ev.released

/-- The blocks and handles returned by the allocating calls of a trace. -/
def names (t : List Ev) : List Nat := t.filterMap Ev.named

/-- The host blocks held by the benchmark, apart from the event arrays: a host image, a
single-device or multi-device result array of one of the images, or one of the three outer
arrays (a `NULL` slot is no block). -/
def Benchmark.OwnsBlock (b : Benchmark) (x : Nat) : Prop :=
  x ≠ 0 ∧ ((∃ i, i < b.num_images ∧ (x = (b.host_data.elem i).ptr ∨
      x = b.single_result.elem i ∨ x = b.multi_result.elem i)) ∨
    x = b.host_data.base ∨ x = b.single_result.base ∨ x = b.multi_result.base)

/-- The device buffers of the benchmark: the input and the output buffer of a device. -/
def Benchmark.OwnsBuffer (b : Benchmark) (x : Nat) : Prop :=
  ∃ d, d < b.ocl.num_devices ∧ (x = b.dev_data_in.elem d ∨ x = b.dev_data_out.elem d)

/-- The name of the block allocated by `g_malloc0 (n_bytes)` at the next name `nx`, if any. -/
def malloc_names (nx n_bytes : Nat) : List Nat := if n_bytes = 0 then [] else [nx]

/-- A strictly increasing list of names within `lo ≤ x < hi`, where `lo ≤ hi`. -/
def Seg (lo hi : Nat) (l : List Nat) : Prop :=
  lo ≤ hi ∧ l.Pairwise (fun a b => a < b) ∧ ∀ x, x ∈ l → lo ≤ x ∧ x < hi

/-- The name of the array `kernels` in a successful setup that starts at the name `nx`. -/
def nm_kernels (ocl : opencl_desc) (nx : Nat) : List Nat :=
  malloc_names (nx + 1) (ocl.num_devices * sizeof_pointer)

/-- The name of the array `single_result`. -/
def nm_single (ocl : opencl_desc) (settings : Settings) (nx : Nat) : List Nat :=
  malloc_names (nx + 2 + ocl.num_devices) (resolve_num_images ocl settings * sizeof_pointer)

/-- The name of the array `multi_result`. -/
def nm_multi (ocl : opencl_desc) (settings : Settings) (nx : Nat) : List Nat :=
  malloc_names (nx + 2 + ocl.num_devices + 1) (resolve_num_images ocl settings * sizeof_pointer)

/-- The name of the array `host_data`. -/
def nm_host (ocl : opencl_desc) (settings : Settings) (nx : Nat) : List Nat :=
  malloc_names (nx + 2 + ocl.num_devices + 2) (resolve_num_images ocl settings * sizeof_pointer)

/-- The name of the array `events`. -/
def nm_events (ocl : opencl_desc) (settings : Settings) (nx : Nat) : List Nat :=
  malloc_names (nx + 2 + ocl.num_devices + 3) (resolve_num_images ocl settings * sizeof_pointer)

/-- The name of the array `read_events`. -/
def nm_read (ocl : opencl_desc) (settings : Settings) (nx : Nat) : List Nat :=
  malloc_names (nx + 2 + ocl.num_devices + 3 + 1)
    (resolve_num_images ocl settings * sizeof_pointer)

/-- The name of the array `write_events`. -/
def nm_write (ocl : opencl_desc) (settings : Settings) (nx : Nat) : List Nat :=
  malloc_names (nx + 2 + ocl.num_devices + 3 + 2)
    (resolve_num_images ocl settings * sizeof_pointer)

/-- The names of the host image and the two result arrays of every image. -/
def nm_images (ocl : opencl_desc) (settings : Settings) (nx : Nat) : List Nat :=
  (List.range (resolve_num_images ocl settings)).flatMap (fun j =>
    malloc_names (nx + 2 + ocl.num_devices + 3 + 3 + 3 * j) (compute_image_size settings)
    ++ malloc_names (nx + 2 + ocl.num_devices + 3 + 3 + 3 * j + 1) (compute_image_size settings)
    ++ malloc_names (nx + 2 + ocl.num_devices + 3 + 3 + 3 * j + 2) (compute_image_size settings))

/-- The name of the array `dev_data_in`. -/
def nm_dev_in (ocl : opencl_desc) (settings : Settings) (nx : Nat) : List Nat :=
  malloc_names (nx + 2 + ocl.num_devices + 3 + 3 + 3 * resolve_num_images ocl settings)
    (ocl.num_devices * sizeof_pointer)

/-- The name of the array `dev_data_out`. -/
def nm_dev_out (ocl : opencl_desc) (settings : Settings) (nx : Nat) : List Nat :=
  malloc_names (nx + 2 + ocl.num_devices + 3 + 3 + 3 * resolve_num_images ocl settings + 1)
    (ocl.num_devices * sizeof_pointer)

/-- The names of the input and the output buffer of every device. -/
def nm_buffers (ocl : opencl_desc) (settings : Settings) (nx : Nat) : List Nat :=
  (List.range ocl.num_devices).flatMap (fun j =>
    [nx + 2 + ocl.num_devices + 3 + 3 + 3 * resolve_num_images ocl settings + 2 + 2 * j,
      nx + 2 + ocl.num_devices + 3 + 3 + 3 * resolve_num_images ocl settings + 2 + 2 * j + 1])

/-! ## Loops and primitives -/

theorem forLoop_zero {σ : Type} (body : Nat → σ → σ) (s : σ) : forLoop 0 body s = s := rfl

theorem forLoop_succ {σ : Type} (n : Nat) (body : Nat → σ → σ) (s : σ) :
    forLoop (n + 1) body s = body n (forLoop n body s) := by
  simp [forLoop, List.range_succ, List.foldl_append]

theorem CHECK_ERROR_success : CHECK_ERROR CL_SUCCESS = false := rfl

theorem new_thread_eq {env : ExecEnv} (h : env.Succeeds) (b : Benchmark) (i : Nat)
    (tld : ThreadLocalData) :
    new_thread env b i tld
      = ⟨i, tld, worker_ops b tld (env.worker i tld.thread_id).wait, true⟩ := by
  obtain ⟨h0, h1, h2⟩ := h.2 i tld.thread_id
  simp [new_thread, process_shared_buffer, h0, h1, h2, CHECK_ERROR_success, worker_ops]

theorem emit_alive (n : Nat) (t : List Ev) (e : Ev) :
    Proc.emit ⟨true, n, t⟩ e = ⟨true, n, t ++ [e]⟩ := rfl

theorem check_success (p : Proc) : p.check CL_SUCCESS = p := by
  cases p; simp [Proc.check, CHECK_ERROR_success]

theorem copy_spawn_loop {env : ExecEnv} (h : env.Succeeds) (b : Benchmark) (i n nx : Nat)
    (tr : List Ev) (th : Nat → Option GThread) :
    forLoop n (fun j f =>
        (f.clEnqueueWriteBuffer (env.write i j) j j b.image_size i).g_thread_create env b i j
          ⟨j, j⟩) (⟨⟨true, nx, tr⟩, th⟩ : Frame)
      = ⟨⟨true, nx, tr ++ copy_spawn_trace env b i n⟩,
          fun j => if j < n then some (new_thread env b i ⟨j, j⟩) else th j⟩ := by
  induction n with
  | zero => simp [forLoop_zero, copy_spawn_trace]
  | succ n ih =>
    rw [forLoop_succ, ih]
    simp only [Frame.clEnqueueWriteBuffer, Frame.g_thread_create, h.1, emit_alive, check_success,
      copy_spawn_trace, List.range_succ, List.flatMap_append, List.flatMap_singleton,
      List.flatMap_nil, List.append_assoc, List.cons_append, List.nil_append, List.append_nil,
      List.flatMap_cons]
    congr 1
    funext j
    by_cases hj : j = n
    · subst hj; simp
    · simp only [Function.update_noteq hj]
      by_cases hlt : j < n
      · simp [hlt, Nat.lt_succ_of_lt hlt]
      · have : ¬ j < n + 1 := by omega
        simp [hlt, this]

theorem pass_spawn_loop (env : ExecEnv) (b : Benchmark) (i n nx : Nat)
    (tr : List Ev) (th : Nat → Option GThread) :
    forLoop n (fun j f => f.g_thread_create env b i j ⟨j, 0⟩) (⟨⟨true, nx, tr⟩, th⟩ : Frame)
      = ⟨⟨true, nx, tr ++ pass_spawn_trace env b i n⟩,
          fun j => if j < n then some (new_thread env b i ⟨j, 0⟩) else th j⟩ := by
  induction n with
  | zero => simp [forLoop_zero, pass_spawn_trace]
  | succ n ih =>
    rw [forLoop_succ, ih]
    simp only [Frame.g_thread_create, emit_alive, pass_spawn_trace, List.range_succ,
      List.map_append, List.map_cons, List.map_nil, List.append_assoc]
    congr 1
    funext j
    by_cases hj : j = n
    · subst hj; simp
    · simp only [Function.update_noteq hj]
      by_cases hlt : j < n
      · simp [hlt, Nat.lt_succ_of_lt hlt]
      · have : ¬ j < n + 1 := by omega
        simp [hlt, this]

theorem join_loop (t : Nat → GThread) (n m nx : Nat) (tr : List Ev)
    (th : Nat → Option GThread) (hth : ∀ j, j < m → th j = some (t j))
    (hret : ∀ j, j < m → (t j).returned = true) (hn : n ≤ m) :
    forLoop n (fun j f => f.g_thread_join j) (⟨⟨true, nx, tr⟩, th⟩ : Frame)
      = ⟨⟨true, nx, tr ++ join_trace t n⟩, th⟩ := by
  induction n with
  | zero => simp [forLoop_zero, join_trace]
  | succ n ih =>
    rw [forLoop_succ, ih (by omega)]
    simp [Frame.g_thread_join, hth n (by omega), hret n (by omega), emit_alive, join_trace,
      List.range_succ]

theorem new_thread_returned {env : ExecEnv} (h : env.Succeeds) (b : Benchmark) (i : Nat)
    (tld : ThreadLocalData) : (new_thread env b i tld).returned = true := by
  rw [new_thread_eq h]

theorem copy_round_eq {env : ExecEnv} (h : env.Succeeds) (b : Benchmark) (i nx : Nat)
    (tr : List Ev) (th : Nat → Option GThread) :
    ∃ th2, copy_round env b i ⟨⟨true, nx, tr⟩, th⟩
      = ⟨⟨true, nx, tr ++ copy_round_trace env b i⟩, th2⟩ := by
  refine ⟨fun j => if j < b.ocl.num_devices then some (new_thread env b i ⟨j, j⟩) else th j, ?_⟩
  unfold copy_round
  simp only []
  rw [copy_spawn_loop h, join_loop (fun j => new_thread env b i ⟨j, j⟩) b.ocl.num_devices
    b.ocl.num_devices _ _ _ (fun j hj => by simp [hj])
    (fun j _ => new_thread_returned h b i _) (Nat.le_refl _)]
  simp [copy_round_trace, List.append_assoc]

theorem pass_through_round_eq {env : ExecEnv} (h : env.Succeeds) (b : Benchmark) (i nx : Nat)
    (tr : List Ev) (th : Nat → Option GThread) :
    ∃ th2, pass_through_round env b i ⟨⟨true, nx, tr⟩, th⟩
      = ⟨⟨true, nx, tr ++ pass_round_trace env b i⟩, th2⟩ := by
  refine ⟨fun j => if j < b.ocl.num_devices then some (new_thread env b i ⟨j, 0⟩) else th j, ?_⟩
  unfold pass_through_round
  simp only [Frame.clEnqueueWriteBuffer, h.1, emit_alive, check_success]
  rw [pass_spawn_loop, join_loop (fun j => new_thread env b i ⟨j, 0⟩) b.ocl.num_devices
    b.ocl.num_devices _ _ _ (fun j hj => by simp [hj])
    (fun j _ => new_thread_returned h b i _) (Nat.le_refl _)]
  simp [pass_round_trace, List.append_assoc]

theorem round_loop (round : Nat → Frame → Frame) (rt : Nat → List Ev)
    (hround : ∀ i nx tr th, ∃ th2, round i ⟨⟨true, nx, tr⟩, th⟩ = ⟨⟨true, nx, tr ++ rt i⟩, th2⟩)
    (n nx : Nat) (tr : List Ev) (th : Nat → Option GThread) :
    ∃ th2, forLoop n round ⟨⟨true, nx, tr⟩, th⟩
      = ⟨⟨true, nx, tr ++ (List.range n).flatMap rt⟩, th2⟩ := by
  induction n with
  | zero => exact ⟨th, by simp [forLoop_zero]⟩
  | succ n ih =>
    obtain ⟨th1, h1⟩ := ih
    obtain ⟨th2, h2⟩ := hround n nx (tr ++ (List.range n).flatMap rt) th1
    refine ⟨th2, ?_⟩
    rw [forLoop_succ, h1, h2]
    simp [List.range_succ, List.flatMap_append, List.append_assoc]

theorem execute_copy_eq {env : ExecEnv} (h : env.Succeeds) (b : Benchmark) (nx : Nat)
    (tr : List Ev) :
    execute_copy env (some b) ⟨true, nx, tr⟩ = ⟨true, nx, tr ++ copy_trace env b⟩ := by
  obtain ⟨th2, h2⟩ := round_loop (copy_round env b) (copy_round_trace env b)
    (fun i nx tr th => copy_round_eq h b i nx tr th) b.num_images nx tr (fun _ => none)
  simp only [execute_copy, h2, copy_trace]

theorem execute_pass_through_eq {env : ExecEnv} (h : env.Succeeds) (b : Benchmark) (nx : Nat)
    (tr : List Ev) :
    execute_pass_through env (some b) ⟨true, nx, tr⟩ = ⟨true, nx, tr ++ pass_trace env b⟩ := by
  obtain ⟨th2, h2⟩ := round_loop (pass_through_round env b) (pass_round_trace env b)
    (fun i nx tr th => pass_through_round_eq h b i nx tr th) b.num_images nx tr (fun _ => none)
  simp only [execute_pass_through, h2, pass_trace]

theorem pairwise_range_of {P : Nat → Nat → Prop} (n : Nat)
    (h : ∀ a b, a < b → b < n → P a b) : (List.range n).Pairwise P :=
  (List.pairwise_lt_range n).imp_of_mem (fun _ hb hlt => h _ _ hlt (List.mem_range.1 hb))

theorem lex_lt_irrefl (a : Nat × Nat × Nat) : ¬ lex_lt a a := by
  unfold lex_lt; omega

theorem lex_lt_asymm {a b : Nat × Nat × Nat} (h : lex_lt a b) : ¬ lex_lt b a := by
  unfold lex_lt at *; omega

/-- In a list sorted strictly by a key, an element with the smaller key stands first. -/
theorem position_lt_of_key_lt {key : Ev → Nat × Nat × Nat} {t : List Ev}
    (hs : t.Pairwise (fun a b => lex_lt (key a) (key b))) {p q : Nat} {a b : Ev}
    (ha : t[p]? = some a) (hb : t[q]? = some b) (hlt : lex_lt (key a) (key b)) : p < q := by
  obtain ⟨hp, rfl⟩ := List.getElem?_eq_some.1 ha
  obtain ⟨hq, rfl⟩ := List.getElem?_eq_some.1 hb
  rcases Nat.lt_trichotomy p q with h | h | h
  · exact h
  · subst h; exact absurd hlt (lex_lt_irrefl _)
  · exact absurd hlt (lex_lt_asymm (List.pairwise_iff_getElem.1 hs q p hq hp h))

theorem mem_copy_round_trace {env : ExecEnv} {b : Benchmark} {i : Nat} {e : Ev}
    (h : e ∈ copy_round_trace env b i) :
    ∃ j, j < b.ocl.num_devices ∧ (e = Ev.clEnqueueWriteBuffer j j b.image_size i ∨
      e = Ev.g_thread_create (new_thread env b i ⟨j, j⟩) ∨
      e = Ev.g_thread_join (new_thread env b i ⟨j, j⟩)) := by
  simp only [copy_round_trace, copy_spawn_trace, join_trace, List.mem_append, List.mem_flatMap,
    List.mem_map, List.mem_range, List.mem_cons, List.mem_singleton, List.not_mem_nil,
    or_false] at h
  rcases h with ⟨j, hj, h | h⟩ | ⟨j, hj, h⟩
  · exact ⟨j, hj, Or.inl h⟩
  · exact ⟨j, hj, Or.inr (Or.inl h)⟩
  · exact ⟨j, hj, Or.inr (Or.inr h.symm)⟩

theorem mem_pass_round_trace {env : ExecEnv} {b : Benchmark} {i : Nat} {e : Ev}
    (h : e ∈ pass_round_trace env b i) :
    e = Ev.clEnqueueWriteBuffer 0 0 b.image_size i ∨
    ∃ j, j < b.ocl.num_devices ∧ (e = Ev.g_thread_create (new_thread env b i ⟨j, 0⟩) ∨
      e = Ev.g_thread_join (new_thread env b i ⟨j, 0⟩)) := by
  simp only [pass_round_trace, pass_spawn_trace, join_trace, List.mem_append, List.mem_cons,
    List.mem_map, List.mem_range] at h
  rcases h with h | ⟨j, hj, h⟩ | ⟨j, hj, h⟩
  · exact Or.inl h
  · exact Or.inr ⟨j, hj, Or.inl h.symm⟩
  · exact Or.inr ⟨j, hj, Or.inr h.symm⟩

theorem new_thread_round (env : ExecEnv) (b : Benchmark) (i : Nat) (tld : ThreadLocalData) :
    (new_thread env b i tld).round = i := rfl

theorem new_thread_data (env : ExecEnv) (b : Benchmark) (i : Nat) (tld : ThreadLocalData) :
    (new_thread env b i tld).data = tld := rfl

theorem copy_round_sorted (env : ExecEnv) (b : Benchmark) (i : Nat) :
    (copy_round_trace env b i).Pairwise (fun x y => lex_lt (copy_key x) (copy_key y)) := by
  unfold copy_round_trace copy_spawn_trace join_trace
  rw [List.pairwise_append]
  refine ⟨?_, ?_, ?_⟩
  · rw [List.pairwise_flatMap]
    refine ⟨fun j _ => ?_, pairwise_range_of _ (fun j k hjk _ x hx y hy => ?_)⟩
    · simp [copy_key, lex_lt, new_thread_round, new_thread_data]
    · simp only [List.mem_cons, List.mem_singleton, List.not_mem_nil, or_false] at hx hy
      rcases hx with rfl | rfl <;> rcases hy with rfl | rfl <;>
        simp [copy_key, lex_lt, new_thread_round, new_thread_data] <;> omega
  · rw [List.pairwise_map]
    exact pairwise_range_of _ (fun j k hjk _ => by
      simp [copy_key, lex_lt, new_thread_round, new_thread_data, hjk])
  · intro x hx y hy
    simp only [List.mem_flatMap, List.mem_range, List.mem_cons, List.mem_singleton,
      List.not_mem_nil, or_false, List.mem_map] at hx hy
    obtain ⟨j, _, hx⟩ := hx
    obtain ⟨k, _, rfl⟩ := hy
    rcases hx with rfl | rfl <;> simp [copy_key, lex_lt, new_thread_round, new_thread_data]

theorem pass_round_sorted (env : ExecEnv) (b : Benchmark) (i : Nat) :
    (pass_round_trace env b i).Pairwise (fun x y => lex_lt (pass_key x) (pass_key y)) := by
  unfold pass_round_trace pass_spawn_trace join_trace
  rw [List.pairwise_cons, List.pairwise_append]
  refine ⟨?_, ?_, ?_, ?_⟩
  · intro y hy
    simp only [List.mem_append, List.mem_map, List.mem_range] at hy
    rcases hy with ⟨k, _, rfl⟩ | ⟨k, _, rfl⟩ <;>
      simp [pass_key, lex_lt, new_thread_round, new_thread_data]
  · rw [List.pairwise_map]
    exact pairwise_range_of _ (fun j k hjk _ => by
      simp [pass_key, lex_lt, new_thread_round, new_thread_data, hjk])
  · rw [List.pairwise_map]
    exact pairwise_range_of _ (fun j k hjk _ => by
      simp [pass_key, lex_lt, new_thread_round, new_thread_data, hjk])
  · intro x hx y hy
    simp only [List.mem_map, List.mem_range] at hx hy
    obtain ⟨j, _, rfl⟩ := hx
    obtain ⟨k, _, rfl⟩ := hy
    simp [pass_key, lex_lt, new_thread_round, new_thread_data]

theorem copy_key_round {env : ExecEnv} {b : Benchmark} {i : Nat} {e : Ev}
    (h : e ∈ copy_round_trace env b i) : (copy_key e).1 = i := by
  obtain ⟨j, _, rfl | rfl | rfl⟩ := mem_copy_round_trace h <;> rfl

theorem pass_key_round {env : ExecEnv} {b : Benchmark} {i : Nat} {e : Ev}
    (h : e ∈ pass_round_trace env b i) : (pass_key e).1 = i := by
  rcases mem_pass_round_trace h with rfl | ⟨j, _, rfl | rfl⟩ <;> rfl

theorem rounds_sorted (key : Ev → Nat × Nat × Nat) (rt : Nat → List Ev) (n : Nat)
    (hin : ∀ i, (rt i).Pairwise (fun x y => lex_lt (key x) (key y)))
    (hround : ∀ i e, e ∈ rt i → (key e).1 = i) :
    ((List.range n).flatMap rt).Pairwise (fun x y => lex_lt (key x) (key y)) := by
  rw [List.pairwise_flatMap]
  refine ⟨fun i _ => hin i, pairwise_range_of _ (fun i k hik _ x hx y hy => ?_)⟩
  left
  rw [hround i x hx, hround k y hy]
  exact hik

theorem copy_trace_sorted (env : ExecEnv) (b : Benchmark) :
    (copy_trace env b).Pairwise (fun x y => lex_lt (copy_key x) (copy_key y)) :=
  rounds_sorted copy_key _ _ (copy_round_sorted env b) (fun _ _ h => copy_key_round h)

theorem pass_trace_sorted (env : ExecEnv) (b : Benchmark) :
    (pass_trace env b).Pairwise (fun x y => lex_lt (pass_key x) (pass_key y)) :=
  rounds_sorted pass_key _ _ (pass_round_sorted env b) (fun _ _ h => pass_key_round h)

theorem filter_rounds (sel : Ev → Bool) (rt : Nat → List Ev) (i n : Nat)
    (hother : ∀ k e, k ≠ i → e ∈ rt k → sel e = false) :
    ((List.range n).flatMap rt).filter sel = if i < n then (rt i).filter sel else [] := by
  induction n with
  | zero => simp
  | succ n ih =>
    rw [List.range_succ, List.flatMap_append, List.filter_append, ih]
    simp only [List.flatMap_cons, List.flatMap_nil, List.append_nil]
    by_cases h1 : i < n
    · have h2 : (rt n).filter sel = [] :=
        List.filter_eq_nil_iff.2 (fun e he => by simp [hother n e (by omega) he])
      simp [h1, Nat.lt_succ_of_lt h1, h2]
    · by_cases h2 : i = n
      · subst h2; simp
      · have h3 : ¬ i < n + 1 := by omega
        have h4 : (rt n).filter sel = [] :=
          List.filter_eq_nil_iff.2 (fun e he => by simp [hother n e (by omega) he])
        simp [h1, h3, h4]

theorem filterMap_rounds {β : Type} (sel : Ev → Option β) (rt : Nat → List Ev) (i n : Nat)
    (hother : ∀ k e, k ≠ i → e ∈ rt k → sel e = none) :
    ((List.range n).flatMap rt).filterMap sel = if i < n then (rt i).filterMap sel else [] := by
  induction n with
  | zero => simp
  | succ n ih =>
    rw [List.range_succ, List.flatMap_append, List.filterMap_append, ih]
    simp only [List.flatMap_cons, List.flatMap_nil, List.append_nil]
    by_cases h1 : i < n
    · have h2 : (rt n).filterMap sel = [] :=
        List.filterMap_eq_nil_iff.2 (fun e he => hother n e (by omega) he)
      simp [h1, Nat.lt_succ_of_lt h1, h2]
    · by_cases h2 : i = n
      · subst h2; simp
      · have h3 : ¬ i < n + 1 := by omega
        have h4 : (rt n).filterMap sel = [] :=
          List.filterMap_eq_nil_iff.2 (fun e he => hother n e (by omega) he)
        simp [h1, h3, h4]

theorem length_filter_rounds (sel : Ev → Bool) (rt : Nat → List Ev) (c n : Nat)
    (hc : ∀ k, ((rt k).filter sel).length = c) :
    (((List.range n).flatMap rt).filter sel).length = n * c := by
  induction n with
  | zero => simp
  | succ n ih =>
    rw [List.range_succ, List.flatMap_append, List.filter_append, List.length_append, ih]
    simp [hc, Nat.succ_mul]

theorem uploads_copy_round (env : ExecEnv) (b : Benchmark) (i : Nat) :
    (copy_round_trace env b i).filter Ev.isUpload
      = (List.range b.ocl.num_devices).map (fun j => Ev.clEnqueueWriteBuffer j j b.image_size i) := by
  unfold copy_round_trace copy_spawn_trace join_trace
  generalize b.ocl.num_devices = n
  have hj : ∀ m, ((List.range m).map
      (fun j => Ev.g_thread_join (new_thread env b i ⟨j, j⟩))).filter Ev.isUpload = [] := by
    intro m
    exact List.filter_eq_nil_iff.2 (fun e he => by
      obtain ⟨j, _, rfl⟩ := List.mem_map.1 he
      simp [Ev.isUpload])
  rw [List.filter_append, hj, List.append_nil]
  induction n with
  | zero => simp
  | succ n ih =>
    rw [List.range_succ, List.flatMap_append, List.filter_append, ih]
    simp [Ev.isUpload]

theorem uploads_pass_round (env : ExecEnv) (b : Benchmark) (i : Nat) :
    (pass_round_trace env b i).filter Ev.isUpload
      = [Ev.clEnqueueWriteBuffer 0 0 b.image_size i] := by
  unfold pass_round_trace pass_spawn_trace join_trace
  rw [List.filter_cons_of_pos (by rfl)]
  congr 1
  exact List.filter_eq_nil_iff.2 (fun e he => by
    simp only [List.mem_append, List.mem_map] at he
    rcases he with ⟨j, _, rfl⟩ | ⟨j, _, rfl⟩ <;> simp [Ev.isUpload])

theorem filter_round_eq (l : List Ev) (i : Nat) (h : ∀ e, e ∈ l → e.round = i) :
    l.filter (fun e => e.isUpload && e.round == i) = l.filter Ev.isUpload :=
  List.filter_congr (fun e he => by simp [h e he])

theorem round_of_mem_copy {env : ExecEnv} {b : Benchmark} {i : Nat} {e : Ev}
    (h : e ∈ copy_round_trace env b i) : e.round = i := by
  obtain ⟨j, _, rfl | rfl | rfl⟩ := mem_copy_round_trace h <;> rfl

theorem round_of_mem_pass {env : ExecEnv} {b : Benchmark} {i : Nat} {e : Ev}
    (h : e ∈ pass_round_trace env b i) : e.round = i := by
  rcases mem_pass_round_trace h with rfl | ⟨j, _, rfl | rfl⟩ <;> rfl

theorem uploads_of_copy_trace (env : ExecEnv) (b : Benchmark) (i : Nat) (hi : i < b.num_images) :
    uploads_of i (copy_trace env b)
      = (List.range b.ocl.num_devices).map (fun j => Ev.clEnqueueWriteBuffer j j b.image_size i) := by
  unfold uploads_of copy_trace
  rw [filter_rounds _ _ i _ (fun k e hk he => by simp [round_of_mem_copy he, hk]), if_pos hi,
    filter_round_eq _ _ (fun e he => round_of_mem_copy he), uploads_copy_round]

theorem uploads_of_pass_trace (env : ExecEnv) (b : Benchmark) (i : Nat) (hi : i < b.num_images) :
    uploads_of i (pass_trace env b) = [Ev.clEnqueueWriteBuffer 0 0 b.image_size i] := by
  unfold uploads_of pass_trace
  rw [filter_rounds _ _ i _ (fun k e hk he => by simp [round_of_mem_pass he, hk]), if_pos hi,
    filter_round_eq _ _ (fun e he => round_of_mem_pass he), uploads_pass_round]

theorem uploads_copy_length (env : ExecEnv) (b : Benchmark) :
    (uploads (copy_trace env b)).length = b.num_images * b.ocl.num_devices :=
  length_filter_rounds _ _ _ _ (fun k => by simp [uploads_copy_round])

theorem uploads_pass_length (env : ExecEnv) (b : Benchmark) :
    (uploads (pass_trace env b)).length = b.num_images := by
  have := length_filter_rounds Ev.isUpload (pass_round_trace env b) 1 b.num_images
    (fun k => by simp [uploads_pass_round])
  simpa [uploads, pass_trace] using this

theorem spawned_copy_round (env : ExecEnv) (b : Benchmark) (i : Nat) :
    spawned i (copy_round_trace env b i)
      = (List.range b.ocl.num_devices).map (fun j => new_thread env b i ⟨j, j⟩) := by
  unfold spawned copy_round_trace copy_spawn_trace join_trace
  generalize b.ocl.num_devices = n
  rw [List.filterMap_append]
  have hj : ∀ m, ((List.range m).map
      (fun j => Ev.g_thread_join (new_thread env b i ⟨j, j⟩))).filterMap (fun e => match e with
        | Ev.g_thread_create th => if th.round = i then some th else none
        | _ => none) = [] := by
    intro m
    exact List.filterMap_eq_nil_iff.2 (fun e he => by
      obtain ⟨j, _, rfl⟩ := List.mem_map.1 he
      rfl)
  rw [hj, List.append_nil]
  induction n with
  | zero => simp
  | succ n ih =>
    rw [List.range_succ, List.flatMap_append, List.filterMap_append, ih]
    simp [new_thread_round]

theorem joined_copy_round (env : ExecEnv) (b : Benchmark) (i : Nat) :
    joined i (copy_round_trace env b i)
      = (List.range b.ocl.num_devices).map (fun j => new_thread env b i ⟨j, j⟩) := by
  unfold joined copy_round_trace copy_spawn_trace join_trace
  generalize b.ocl.num_devices = n
  rw [List.filterMap_append]
  have hs : ∀ m, ((List.range m).flatMap (fun j =>
      [Ev.clEnqueueWriteBuffer j j b.image_size i,
        Ev.g_thread_create (new_thread env b i ⟨j, j⟩)])).filterMap (fun e => match e with
        | Ev.g_thread_join th => if th.round = i then some th else none
        | _ => none) = [] := by
    intro m
    exact List.filterMap_eq_nil_iff.2 (fun e he => by
      obtain ⟨j, _, he⟩ := List.mem_flatMap.1 he
      simp only [List.mem_cons, List.mem_singleton, List.not_mem_nil, or_false] at he
      rcases he with rfl | rfl <;> rfl)
  rw [hs, List.nil_append, List.filterMap_map]
  induction n with
  | zero => simp
  | succ n ih =>
    rw [List.range_succ, List.filterMap_append, List.map_append, ih]
    simp [new_thread_round]

theorem spawned_pass_round (env : ExecEnv) (b : Benchmark) (i : Nat) :
    spawned i (pass_round_trace env b i)
      = (List.range b.ocl.num_devices).map (fun j => new_thread env b i ⟨j, 0⟩) := by
  unfold spawned pass_round_trace pass_spawn_trace join_trace
  generalize b.ocl.num_devices = n
  rw [List.filterMap_cons_none (by rfl), List.filterMap_append]
  have hj : ∀ m, ((List.range m).map
      (fun j => Ev.g_thread_join (new_thread env b i ⟨j, 0⟩))).filterMap (fun e => match e with
        | Ev.g_thread_create th => if th.round = i then some th else none
        | _ => none) = [] := by
    intro m
    exact List.filterMap_eq_nil_iff.2 (fun e he => by
      obtain ⟨j, _, rfl⟩ := List.mem_map.1 he
      rfl)
  rw [hj, List.append_nil, List.filterMap_map]
  induction n with
  | zero => simp
  | succ n ih =>
    rw [List.range_succ, List.filterMap_append, List.map_append, ih]
    simp [new_thread_round]

theorem joined_pass_round (env : ExecEnv) (b : Benchmark) (i : Nat) :
    joined i (pass_round_trace env b i)
      = (List.range b.ocl.num_devices).map (fun j => new_thread env b i ⟨j, 0⟩) := by
  unfold joined pass_round_trace pass_spawn_trace join_trace
  generalize b.ocl.num_devices = n
  rw [List.filterMap_cons_none (by rfl), List.filterMap_append]
  have hs : ∀ m, ((List.range m).map
      (fun j => Ev.g_thread_create (new_thread env b i ⟨j, 0⟩))).filterMap (fun e => match e with
        | Ev.g_thread_join th => if th.round = i then some th else none
        | _ => none) = [] := by
    intro m
    exact List.filterMap_eq_nil_iff.2 (fun e he => by
      obtain ⟨j, _, rfl⟩ := List.mem_map.1 he
      rfl)
  rw [hs, List.nil_append, List.filterMap_map]
  induction n with
  | zero => simp
  | succ n ih =>
    rw [List.range_succ, List.filterMap_append, List.map_append, ih]
    simp [new_thread_round]

theorem spawned_other (i k : Nat) (e : Ev) (hk : e.round = k) (hne : k ≠ i) :
    (match e with
      | Ev.g_thread_create th => if th.round = i then some th else none
      | _ => none) = none := by
  cases e <;> simp_all [Ev.round]

theorem joined_other (i k : Nat) (e : Ev) (hk : e.round = k) (hne : k ≠ i) :
    (match e with
      | Ev.g_thread_join th => if th.round = i then some th else none
      | _ => none) = none := by
  cases e <;> simp_all [Ev.round]

theorem spawned_copy_trace (env : ExecEnv) (b : Benchmark) (i : Nat) (hi : i < b.num_images) :
    spawned i (copy_trace env b)
      = (List.range b.ocl.num_devices).map (fun j => new_thread env b i ⟨j, j⟩) := by
  rw [← spawned_copy_round]
  unfold spawned copy_trace
  rw [filterMap_rounds _ _ i _ (fun k e hk he => spawned_other i k e (round_of_mem_copy he) hk),
    if_pos hi]

theorem joined_copy_trace (env : ExecEnv) (b : Benchmark) (i : Nat) (hi : i < b.num_images) :
    joined i (copy_trace env b)
      = (List.range b.ocl.num_devices).map (fun j => new_thread env b i ⟨j, j⟩) := by
  rw [← joined_copy_round]
  unfold joined copy_trace
  rw [filterMap_rounds _ _ i _ (fun k e hk he => joined_other i k e (round_of_mem_copy he) hk),
    if_pos hi]

theorem spawned_pass_trace (env : ExecEnv) (b : Benchmark) (i : Nat) (hi : i < b.num_images) :
    spawned i (pass_trace env b)
      = (List.range b.ocl.num_devices).map (fun j => new_thread env b i ⟨j, 0⟩) := by
  rw [← spawned_pass_round]
  unfold spawned pass_trace
  rw [filterMap_rounds _ _ i _ (fun k e hk he => spawned_other i k e (round_of_mem_pass he) hk),
    if_pos hi]

theorem joined_pass_trace (env : ExecEnv) (b : Benchmark) (i : Nat) (hi : i < b.num_images) :
    joined i (pass_trace env b)
      = (List.range b.ocl.num_devices).map (fun j => new_thread env b i ⟨j, 0⟩) := by
  rw [← joined_pass_round]
  unfold joined pass_trace
  rw [filterMap_rounds _ _ i _ (fun k e hk he => joined_other i k e (round_of_mem_pass he) hk),
    if_pos hi]

theorem map_thread_id_range (n : Nat) (f : Nat → GThread) (hf : ∀ j, (f j).data.thread_id = j) :
    ((List.range n).map f).map (fun th => th.data.thread_id) = List.range n := by
  rw [List.map_map]
  conv_rhs => rw [← List.map_id (List.range n)]
  exact List.map_congr_left (fun j _ => by simp [hf])

theorem forkJoin_of_sorted (key : Ev → Nat × Nat × Nat) (nd n : Nat) (t : List Ev)
    (hs : t.Pairwise (fun a b => lex_lt (key a) (key b)))
    (hsp : ∀ i, i < n → (spawned i t).map (fun th => th.data.thread_id) = List.range nd)
    (hjo : ∀ i, i < n → joined i t = spawned i t)
    (hk1 : ∀ e, (key e).1 = e.round)
    (hk2 : ∀ e, e.isJoin = true → (key e).2.1 = 1)
    (hk3 : ∀ e, e.isSpawn = true → (key e).2.1 = 0) :
    ForkJoin nd n t := by
  refine ⟨hsp, hjo, ?_, ?_⟩
  · intro p q s j hp hq hs1 hj1 hr
    refine position_lt_of_key_lt hs hp hq ?_
    right
    refine ⟨by rw [hk1, hk1, hr], Or.inl ?_⟩
    rw [hk2 j hj1, hk3 s hs1]
    exact Nat.zero_lt_one
  · intro p q j e hp hq _ _ hr
    refine position_lt_of_key_lt hs hp hq ?_
    left
    rw [hk1, hk1]
    exact hr

theorem update_ite {α : Type} (f g : Nat → α) (n : Nat) (v : α) (hv : v = f n) :
    Function.update (fun j => if j < n then f j else g j) n v
      = fun j => if j < n + 1 then f j else g j := by
  funext j
  by_cases hj : j = n
  · subst hj; simp [hv]
  · rw [Function.update_noteq hj]
    by_cases hlt : j < n
    · simp [hlt, Nat.lt_succ_of_lt hlt]
    · have : ¬ j < n + 1 := by omega
      simp [hlt, this]

theorem g_malloc0_eq (n_bytes nx : Nat) (tr : List Ev) :
    g_malloc0 n_bytes ⟨true, nx, tr⟩
      = (malloc_ptr nx n_bytes, ⟨true, nx + 1, tr ++ malloc_ev nx n_bytes⟩) := by
  unfold g_malloc0 malloc_ptr malloc_ev
  by_cases h : n_bytes = 0
  · simp [h]
  · simp [h, emit_alive]

theorem g_free_eq (ptr nx : Nat) (tr : List Ev) :
    g_free ptr ⟨true, nx, tr⟩ = ⟨true, nx, tr ++ free_ev ptr⟩ := by
  unfold g_free free_ev
  by_cases h : ptr = 0
  · simp [h]
  · simp [h, emit_alive]

theorem alloc_benchmark_eq (ocl : opencl_desc) (settings : Settings) (nx : Nat) (tr : List Ev) :
    alloc_benchmark ocl settings ⟨true, nx, tr⟩
      = ({ Benchmark.zero nx ocl settings with
            kernels := ⟨malloc_ptr (nx + 1) (ocl.num_devices * sizeof_pointer), fun _ => 0⟩ },
          ⟨true, nx + 2, tr ++ ([Ev.g_malloc0 nx sizeof_Benchmark]
            ++ malloc_ev (nx + 1) (ocl.num_devices * sizeof_pointer))⟩) := by
  simp [alloc_benchmark, g_malloc0_eq, malloc_ptr, malloc_ev, sizeof_Benchmark]

theorem create_kernels_loop (env : Env) (hk : ∀ i, env.create_kernel i = CL_SUCCESS)
    (n : Nat) (b : Benchmark) (nx : Nat) (tr : List Ev) :
    forLoop n (fun i (s : Benchmark × Proc) =>
        let r := clCreateKernel s.2
        (({ s.1 with kernels := s.1.kernels.set i r.1 } : Benchmark),
          r.2.check (env.create_kernel i))) (b, ⟨true, nx, tr⟩)
      = ({ b with kernels := ⟨b.kernels.base,
              fun j => if j < n then nx + j else b.kernels.elem j⟩ },
          ⟨true, nx + n, tr ++ (List.range n).map (fun j => Ev.clCreateKernel (nx + j))⟩) := by
  induction n with
  | zero => simp [forLoop_zero]
  | succ n ih =>
    rw [forLoop_succ, ih]
    simp only [clCreateKernel, emit_alive, hk, check_success, Arr.set, List.range_succ,
      List.map_append, List.map_cons, List.map_nil, List.append_assoc]
    rw [update_ite _ _ _ _ rfl]
    rfl

theorem create_kernels_eq (env : Env) (hk : ∀ i, env.create_kernel i = CL_SUCCESS)
    (ocl : opencl_desc) (b : Benchmark) (nx : Nat) (tr : List Ev) :
    create_kernels env ocl (b, ⟨true, nx, tr⟩)
      = ({ b with kernels := ⟨b.kernels.base,
              fun j => if j < ocl.num_devices then nx + j else b.kernels.elem j⟩ },
          ⟨true, nx + ocl.num_devices,
            tr ++ (List.range ocl.num_devices).map (fun j => Ev.clCreateKernel (nx + j))⟩) :=
  create_kernels_loop env hk _ b nx tr

theorem alloc_host_arrays_eq (b : Benchmark) (nx : Nat) (tr : List Ev) :
    alloc_host_arrays (b, ⟨true, nx, tr⟩)
      = ({ b with
            single_result := ⟨malloc_ptr nx (b.num_images * sizeof_pointer), fun _ => 0⟩
            multi_result := ⟨malloc_ptr (nx + 1) (b.num_images * sizeof_pointer), fun _ => 0⟩
            host_data := ⟨malloc_ptr (nx + 2) (b.num_images * sizeof_pointer),
              fun _ => ⟨0, 0, []⟩⟩ },
          ⟨true, nx + 3, tr ++ (malloc_ev nx (b.num_images * sizeof_pointer)
            ++ malloc_ev (nx + 1) (b.num_images * sizeof_pointer)
            ++ malloc_ev (nx + 2) (b.num_images * sizeof_pointer))⟩) := by
  simp [alloc_host_arrays, g_malloc0_eq, List.append_assoc]

theorem alloc_event_arrays_eq (b : Benchmark) (nx : Nat) (tr : List Ev) :
    alloc_event_arrays (b, ⟨true, nx, tr⟩)
      = ({ b with
            events := malloc_ptr nx (b.num_images * sizeof_pointer)
            read_events := malloc_ptr (nx + 1) (b.num_images * sizeof_pointer)
            write_events := malloc_ptr (nx + 2) (b.num_images * sizeof_pointer) },
          ⟨true, nx + 3, tr ++ (malloc_ev nx (b.num_images * sizeof_pointer)
            ++ malloc_ev (nx + 1) (b.num_images * sizeof_pointer)
            ++ malloc_ev (nx + 2) (b.num_images * sizeof_pointer))⟩) := by
  simp [alloc_event_arrays, g_malloc0_eq, List.append_assoc]

theorem alloc_device_arrays_eq (ocl : opencl_desc) (b : Benchmark) (nx : Nat) (tr : List Ev) :
    alloc_device_arrays ocl (b, ⟨true, nx, tr⟩)
      = ({ b with
            dev_data_in := ⟨malloc_ptr nx (ocl.num_devices * sizeof_pointer), fun _ => 0⟩
            dev_data_out := ⟨malloc_ptr (nx + 1) (ocl.num_devices * sizeof_pointer),
              fun _ => 0⟩ },
          ⟨true, nx + 2, tr ++ (malloc_ev nx (ocl.num_devices * sizeof_pointer)
            ++ malloc_ev (nx + 1) (ocl.num_devices * sizeof_pointer))⟩) := by
  simp [alloc_device_arrays, g_malloc0_eq, List.append_assoc]

theorem fill_loop (i k : Nat) (b : Benchmark) :
    forLoop k (fun j (b : Benchmark) =>
        let blk := b.host_data.elem i
        ({ b with host_data := b.host_data.set i { blk with stored := blk.stored ++ [j] } }
          : Benchmark)) b
      = { b with host_data := (b.host_data.set i
            ⟨(b.host_data.elem i).ptr, (b.host_data.elem i).n_bytes,
              (b.host_data.elem i).stored ++ List.range k⟩) } := by
  induction k with
  | zero => simp [forLoop_zero, Arr.set]
  | succ k ih =>
    rw [forLoop_succ, ih]
    simp [Arr.set, List.range_succ, List.append_assoc]

theorem fill_image_eq (i : Nat) (b : Benchmark) :
    fill_image i b
      = { b with host_data := (b.host_data.set i
            ⟨(b.host_data.elem i).ptr, (b.host_data.elem i).n_bytes,
              (b.host_data.elem i).stored
                ++ List.range ((b.settings.width * b.settings.height) % GUINT_MOD)⟩) } :=
  fill_loop i _ b

/-- The calls of one iteration of the image loop of `setup_benchmark`. -/
theorem create_images_loop (n : Nat) (b : Benchmark) (nx : Nat) (tr : List Ev) :
    forLoop n (fun i (s : Benchmark × Proc) =>
        let b := s.1
        let h := g_malloc0 b.image_size s.2
        let b : Benchmark := { b with host_data := b.host_data.set i ⟨h.1, b.image_size, []⟩ }
        let r := g_malloc0 b.image_size h.2
        let b : Benchmark := { b with single_result := b.single_result.set i r.1 }
        let m := g_malloc0 b.image_size r.2
        let b : Benchmark := { b with multi_result := b.multi_result.set i m.1 }
        (fill_image i b, m.2)) (b, ⟨true, nx, tr⟩)
      = ({ b with
            host_data := ⟨b.host_data.base, fun j => if j < n then
              ⟨malloc_ptr (nx + 3 * j) b.image_size, b.image_size,
                List.range ((b.settings.width * b.settings.height) % GUINT_MOD)⟩
              else b.host_data.elem j⟩
            single_result := ⟨b.single_result.base, fun j => if j < n then
              malloc_ptr (nx + 3 * j + 1) b.image_size else b.single_result.elem j⟩
            multi_result := ⟨b.multi_result.base, fun j => if j < n then
              malloc_ptr (nx + 3 * j + 2) b.image_size else b.multi_result.elem j⟩ },
          ⟨true, nx + 3 * n, tr ++ (List.range n).flatMap (fun j =>
            malloc_ev (nx + 3 * j) b.image_size ++ malloc_ev (nx + 3 * j + 1) b.image_size
              ++ malloc_ev (nx + 3 * j + 2) b.image_size)⟩) := by
  induction n with
  | zero => simp [forLoop_zero]
  | succ n ih =>
    rw [forLoop_succ, ih]
    simp only [g_malloc0_eq, fill_image_eq, Arr.set, List.range_succ, List.flatMap_append,
      List.flatMap_cons, List.flatMap_nil, List.append_nil, List.append_assoc,
      Function.update_same, Function.update_idem, List.nil_append]
    rw [update_ite _ _ _ _ rfl, update_ite _ _ _ _ rfl, update_ite _ _ _ _ rfl]
    have e1 : nx + 3 * n + 1 + 1 + 1 = nx + 3 * (n + 1) := by omega
    have e2 : nx + 3 * n + 1 + 1 = nx + 3 * n + 2 := by omega
    rw [e1, e2]

theorem create_buffers_loop (env : Env) (hin : ∀ i, env.create_in i = CL_SUCCESS)
    (hout : ∀ i, env.create_out i = CL_SUCCESS) (n : Nat) (b : Benchmark) (nx : Nat)
    (tr : List Ev) :
    forLoop n (fun i (s : Benchmark × Proc) =>
        let b := s.1
        let r := clCreateBuffer b.image_size s.2
        let b : Benchmark := { b with dev_data_in := b.dev_data_in.set i r.1 }
        let p := r.2.check (env.create_in i)
        let o := clCreateBuffer b.image_size p
        let b : Benchmark := { b with dev_data_out := b.dev_data_out.set i o.1 }
        (b, o.2.check (env.create_out i))) (b, ⟨true, nx, tr⟩)
      = ({ b with
            dev_data_in := ⟨b.dev_data_in.base, fun j => if j < n then nx + 2 * j
              else b.dev_data_in.elem j⟩
            dev_data_out := ⟨b.dev_data_out.base, fun j => if j < n then nx + 2 * j + 1
              else b.dev_data_out.elem j⟩ },
          ⟨true, nx + 2 * n, tr ++ (List.range n).flatMap (fun j =>
            [Ev.clCreateBuffer (nx + 2 * j) b.image_size,
              Ev.clCreateBuffer (nx + 2 * j + 1) b.image_size])⟩) := by
  induction n with
  | zero => simp [forLoop_zero]
  | succ n ih =>
    rw [forLoop_succ, ih]
    simp only [clCreateBuffer, emit_alive, hin, hout, check_success, Arr.set, List.range_succ,
      List.flatMap_append, List.flatMap_cons, List.flatMap_nil, List.append_nil,
      List.append_assoc, List.cons_append, List.nil_append]
    rw [update_ite _ _ _ _ rfl, update_ite _ _ _ _ rfl]
    have e1 : nx + 2 * n + 1 + 1 = nx + 2 * (n + 1) := by omega
    rw [e1]

theorem setup_benchmark_eq {env : Env} (h : env.SetupSucceeds) (ocl : opencl_desc)
    (settings : Settings) (nx : Nat) (tr : List Ev) :
    setup_benchmark env ocl settings ⟨true, nx, tr⟩
      = (some (setup_result ocl settings nx),
          ⟨true, nx + setup_names ocl settings, tr ++ setup_trace ocl settings nx⟩) := by
  obtain ⟨hp, hk, hin, hout⟩ := h
  unfold setup_benchmark
  rw [if_neg hp]
  simp only [alloc_benchmark_eq, create_kernels_eq env hk, alloc_host_arrays_eq,
    alloc_event_arrays_eq, create_images, create_images_loop, alloc_device_arrays_eq,
    create_buffers, create_buffers_loop env hin hout, set_sizes, Benchmark.zero]
  simp only [setup_result, setup_trace, setup_names, List.append_assoc, Nat.add_assoc]

theorem free_images_loop (b : Benchmark) (n nx : Nat) (tr : List Ev) :
    forLoop n (fun i p =>
        let p := g_free (b.host_data.elem i).ptr p
        let p := g_free (b.single_result.elem i) p
        g_free (b.multi_result.elem i) p) (⟨true, nx, tr⟩ : Proc)
      = ⟨true, nx, tr ++ (List.range n).flatMap (fun i =>
          free_ev (b.host_data.elem i).ptr ++ free_ev (b.single_result.elem i)
            ++ free_ev (b.multi_result.elem i))⟩ := by
  induction n with
  | zero => simp [forLoop_zero]
  | succ n ih =>
    rw [forLoop_succ, ih]
    simp [g_free_eq, List.range_succ, List.flatMap_append, List.append_assoc]

theorem release_buffers_loop (env : Env) (h : env.TeardownSucceeds) (b : Benchmark)
    (n nx : Nat) (tr : List Ev) :
    forLoop n (fun i p =>
        let p := (Proc.emit p (Ev.clReleaseMemObject (b.dev_data_in.elem i))).check
          (env.release_in i)
        (p.emit (Ev.clReleaseMemObject (b.dev_data_out.elem i))).check (env.release_out i))
        (⟨true, nx, tr⟩ : Proc)
      = ⟨true, nx, tr ++ (List.range n).flatMap (fun i =>
          [Ev.clReleaseMemObject (b.dev_data_in.elem i),
            Ev.clReleaseMemObject (b.dev_data_out.elem i)])⟩ := by
  induction n with
  | zero => simp [forLoop_zero]
  | succ n ih =>
    rw [forLoop_succ, ih]
    simp [emit_alive, h.1, h.2, check_success, List.range_succ, List.flatMap_append,
      List.append_assoc]

theorem teardown_benchmark_eq {env : Env} (h : env.TeardownSucceeds) (b : Benchmark)
    (nx : Nat) (tr : List Ev) :
    teardown_benchmark env (some b) ⟨true, nx, tr⟩ = ⟨true, nx, tr ++ teardown_trace b⟩ := by
  simp only [teardown_benchmark, free_images, release_buffers, free_images_loop,
    release_buffers_loop env h, g_free_eq, teardown_trace, List.append_assoc]

theorem main_eq {env : Env} (h : env.Succeeds) (ocl : opencl_desc) (settings : Settings) :
    main env ocl settings
      = ⟨true, 1 + setup_names ocl settings, main_trace env ocl settings⟩ := by
  obtain ⟨hs, hc, hp, ht⟩ := h
  simp only [main, Proc.init, setup_benchmark_eq hs, measure_benchmark, emit_alive,
    execute_copy_eq hc, execute_pass_through_eq hp, teardown_benchmark_eq ht, main_trace,
    List.nil_append, List.append_assoc]

theorem mem_copy_trace {env : ExecEnv} {b : Benchmark} {e : Ev} (h : e ∈ copy_trace env b) :
    ∃ i, e ∈ copy_round_trace env b i := by
  obtain ⟨i, _, hi⟩ := List.mem_flatMap.1 h
  exact ⟨i, hi⟩

theorem mem_pass_trace {env : ExecEnv} {b : Benchmark} {e : Ev} (h : e ∈ pass_trace env b) :
    ∃ i, e ∈ pass_round_trace env b i := by
  obtain ⟨i, _, hi⟩ := List.mem_flatMap.1 h
  exact ⟨i, hi⟩

theorem write_size_copy {env : ExecEnv} {b : Benchmark} {q d cb i : Nat}
    (h : Ev.clEnqueueWriteBuffer q d cb i ∈ copy_trace env b) : cb = b.image_size := by
  obtain ⟨k, hk⟩ := mem_copy_trace h
  obtain ⟨j, _, h1 | h1 | h1⟩ := mem_copy_round_trace hk
  · injection h1 with _ _ h3 _
  · cases h1
  · cases h1

theorem write_size_pass {env : ExecEnv} {b : Benchmark} {q d cb i : Nat}
    (h : Ev.clEnqueueWriteBuffer q d cb i ∈ pass_trace env b) : cb = b.image_size := by
  obtain ⟨k, hk⟩ := mem_pass_trace h
  rcases mem_pass_round_trace hk with h1 | ⟨j, _, h1 | h1⟩
  · injection h1 with _ _ h3 _
  · cases h1
  · cases h1

theorem mem_malloc_ev {e : Ev} {k sz : Nat} (h : e ∈ malloc_ev k sz) :
    e = Ev.g_malloc0 k sz := by
  unfold malloc_ev at h
  split at h
  · cases h
  · exact List.mem_singleton.1 h

theorem mem_free_ev {e : Ev} {p : Nat} (h : e ∈ free_ev p) : e = Ev.g_free p := by
  unfold free_ev at h
  split at h
  · cases h
  · exact List.mem_singleton.1 h

theorem create_size_setup {ocl : opencl_desc} {settings : Settings} {nx m sz : Nat}
    (h : Ev.clCreateBuffer m sz ∈ setup_trace ocl settings nx) :
    sz = compute_image_size settings := by
  simp only [setup_trace, List.mem_append, List.mem_map, List.mem_flatMap, List.mem_cons,
    List.mem_singleton, List.not_mem_nil, or_false] at h
  rcases h with ((((((h | h) | ⟨j, _, h⟩) | ((h | h) | h)) | ((h | h) | h)) |
    ⟨j, _, ((h | h) | h)⟩) | (h | h)) | ⟨j, _, (h | h)⟩
  all_goals first
    | (cases mem_malloc_ev h)
    | (cases h; done)
    | (injection h with _ h2)

theorem create_not_mem_teardown {b : Benchmark} {m sz : Nat} :
    Ev.clCreateBuffer m sz ∉ teardown_trace b := by
  intro h
  simp only [teardown_trace, List.mem_append, List.mem_flatMap, List.mem_cons,
    List.mem_singleton, List.not_mem_nil, or_false] at h
  rcases h with (⟨j, _, ((h | h) | h)⟩ | ⟨j, _, (h | h)⟩) |
    ((((((((h | h) | h) | h) | h) | h) | h) | h) | h)
  all_goals first
    | (cases mem_free_ev h)
    | (cases h)

theorem write_not_mem_teardown {b : Benchmark} {q d cb i : Nat} :
    Ev.clEnqueueWriteBuffer q d cb i ∉ teardown_trace b := by
  intro h
  simp only [teardown_trace, List.mem_append, List.mem_flatMap, List.mem_cons,
    List.mem_singleton, List.not_mem_nil, or_false] at h
  rcases h with (⟨j, _, ((h | h) | h)⟩ | ⟨j, _, (h | h)⟩) |
    ((((((((h | h) | h) | h) | h) | h) | h) | h) | h)
  all_goals first
    | (cases mem_free_ev h)
    | (cases h)

theorem write_not_mem_setup {ocl : opencl_desc} {settings : Settings} {nx q d cb i : Nat} :
    Ev.clEnqueueWriteBuffer q d cb i ∉ setup_trace ocl settings nx := by
  intro h
  simp only [setup_trace, List.mem_append, List.mem_map, List.mem_flatMap, List.mem_cons,
    List.mem_singleton, List.not_mem_nil, or_false] at h
  rcases h with ((((((h | h) | ⟨j, _, h⟩) | ((h | h) | h)) | ((h | h) | h)) |
    ⟨j, _, ((h | h) | h)⟩) | (h | h)) | ⟨j, _, (h | h)⟩
  all_goals first
    | (cases mem_malloc_ev h)
    | (cases h)

theorem create_not_mem_copy {env : ExecEnv} {b : Benchmark} {m sz : Nat} :
    Ev.clCreateBuffer m sz ∉ copy_trace env b := by
  intro h
  obtain ⟨k, hk⟩ := mem_copy_trace h
  obtain ⟨j, _, h1 | h1 | h1⟩ := mem_copy_round_trace hk <;> cases h1

theorem create_not_mem_pass {env : ExecEnv} {b : Benchmark} {m sz : Nat} :
    Ev.clCreateBuffer m sz ∉ pass_trace env b := by
  intro h
  obtain ⟨k, hk⟩ := mem_pass_trace h
  rcases mem_pass_round_trace hk with h1 | ⟨j, _, h1 | h1⟩ <;> cases h1

theorem getElem?_map_range {α : Type} (f : Nat → α) {n d : Nat} (hd : d < n) :
    ((List.range n).map f)[d]? = some (f d) := by
  rw [List.getElem?_map, List.getElem?_range hd]
  rfl

theorem seg_nil {lo hi : Nat} (h : lo ≤ hi) : Seg lo hi [] :=
  ⟨h, List.Pairwise.nil, fun _ h => by cases h⟩

theorem seg_singleton {lo hi k : Nat} (h1 : lo ≤ k) (h2 : k < hi) : Seg lo hi [k] :=
  ⟨by omega, List.pairwise_singleton _ _, fun x hx => by
    rw [List.mem_singleton] at hx; subst hx; exact ⟨h1, h2⟩⟩

theorem seg_mono {lo hi lo2 hi2 : Nat} {l : List Nat} (h : Seg lo hi l) (h1 : lo2 ≤ lo)
    (h2 : hi ≤ hi2) : Seg lo2 hi2 l := by
  obtain ⟨h0, hp, hb⟩ := h
  refine ⟨by omega, hp, fun x hx => ?_⟩
  have := hb x hx
  omega

theorem seg_append {lo mid hi : Nat} {l1 l2 : List Nat} (h1 : Seg lo mid l1)
    (h2 : Seg mid hi l2) : Seg lo hi (l1 ++ l2) := by
  obtain ⟨ha, hp1, hb1⟩ := h1
  obtain ⟨hb, hp2, hb2⟩ := h2
  refine ⟨by omega, List.pairwise_append.2 ⟨hp1, hp2, fun a ha b hb => ?_⟩, fun x hx => ?_⟩
  · have := hb1 a ha
    have := hb2 b hb
    omega
  · rcases List.mem_append.1 hx with hx | hx
    · have := hb1 x hx
      omega
    · have := hb2 x hx
      omega

theorem seg_malloc_names (k sz : Nat) : Seg k (k + 1) (malloc_names k sz) := by
  unfold malloc_names
  split
  · exact seg_nil (by omega)
  · exact seg_singleton (Nat.le_refl _) (by omega)

theorem seg_flatMap (w base n : Nat) (f : Nat → List Nat)
    (hf : ∀ j, Seg (base + w * j) (base + w * (j + 1)) (f j)) :
    Seg base (base + w * n) ((List.range n).flatMap f) := by
  induction n with
  | zero => exact seg_nil (by omega)
  | succ n ih =>
    rw [List.range_succ, List.flatMap_append]
    simp only [List.flatMap_cons, List.flatMap_nil, List.append_nil]
    exact seg_append ih (hf n)

theorem seg_nodup {lo hi : Nat} {l : List Nat} (h : Seg lo hi l) : l.Nodup :=
  h.2.1.imp (fun hlt => Nat.ne_of_lt hlt)

theorem filterMap_flatMap_range {α β : Type} (sel : α → Option β) (f : Nat → List α) (n : Nat) :
    ((List.range n).flatMap f).filterMap sel
      = (List.range n).flatMap (fun j => (f j).filterMap sel) := by
  induction n with
  | zero => simp
  | succ n ih =>
    rw [List.range_succ, List.flatMap_append, List.filterMap_append, ih, List.flatMap_append]
    simp

theorem flatMap_range_congr {β : Type} (f g : Nat → List β) (n : Nat)
    (h : ∀ j, j < n → f j = g j) : (List.range n).flatMap f = (List.range n).flatMap g := by
  induction n with
  | zero => simp
  | succ n ih =>
    rw [List.range_succ, List.flatMap_append, List.flatMap_append,
      ih (fun j hj => h j (by omega))]
    simp [h n (by omega)]

theorem named_malloc_ev (k sz : Nat) :
    (malloc_ev k sz).filterMap Ev.named = malloc_names k sz := by
  unfold malloc_ev malloc_names; split <;> rfl

theorem allocated_malloc_ev (k sz : Nat) :
    (malloc_ev k sz).filterMap Ev.allocated = malloc_names k sz := by
  unfold malloc_ev malloc_names; split <;> rfl

theorem created_malloc_ev (k sz : Nat) : (malloc_ev k sz).filterMap Ev.created = [] := by
  unfold malloc_ev; split <;> rfl

theorem freed_malloc_ev (k sz : Nat) : (malloc_ev k sz).filterMap Ev.freed = [] := by
  unfold malloc_ev; split <;> rfl

theorem released_malloc_ev (k sz : Nat) : (malloc_ev k sz).filterMap Ev.released = [] := by
  unfold malloc_ev; split <;> rfl

theorem freed_free_ev (k sz : Nat) (hk : k ≠ 0) :
    (free_ev (malloc_ptr k sz)).filterMap Ev.freed = malloc_names k sz := by
  unfold free_ev malloc_ptr malloc_names
  by_cases h : sz = 0
  · simp [h]
  · simp [h, hk, Ev.freed]

theorem released_free_ev (p : Nat) : (free_ev p).filterMap Ev.released = [] := by
  unfold free_ev; split <;> rfl

theorem allocated_free_ev (p : Nat) : (free_ev p).filterMap Ev.allocated = [] := by
  unfold free_ev; split <;> rfl

theorem created_free_ev (p : Nat) : (free_ev p).filterMap Ev.created = [] := by
  unfold free_ev; split <;> rfl

theorem named_free_ev (p : Nat) : (free_ev p).filterMap Ev.named = [] := by
  unfold free_ev; split <;> rfl

theorem filterMap_map_none {α β γ : Type} (sel : β → Option γ) (f : α → β) (l : List α)
    (h : ∀ a, sel (f a) = none) : (l.map f).filterMap sel = [] :=
  List.filterMap_eq_nil_iff.2 (fun e he => by
    obtain ⟨a, _, rfl⟩ := List.mem_map.1 he
    exact h a)

theorem filterMap_flatMap_none {α β γ : Type} (sel : β → Option γ) (f : α → List β)
    (l : List α) (h : ∀ a e, e ∈ f a → sel e = none) : (l.flatMap f).filterMap sel = [] :=
  List.filterMap_eq_nil_iff.2 (fun e he => by
    obtain ⟨a, _, ha⟩ := List.mem_flatMap.1 he
    exact h a e ha)

/-- A selector that is `none` on every upload, thread creation and join is `none` on the
whole trace of a strategy. -/
theorem sel_copy_trace {γ : Type} (sel : Ev → Option γ) (env : ExecEnv) (b : Benchmark)
    (hw : ∀ q d cb i, sel (Ev.clEnqueueWriteBuffer q d cb i) = none)
    (hc : ∀ t, sel (Ev.g_thread_create t) = none) (hj : ∀ t, sel (Ev.g_thread_join t) = none) :
    (copy_trace env b).filterMap sel = [] :=
  List.filterMap_eq_nil_iff.2 (fun e he => by
    obtain ⟨k, hk⟩ := mem_copy_trace he
    obtain ⟨j, _, rfl | rfl | rfl⟩ := mem_copy_round_trace hk
    · exact hw _ _ _ _
    · exact hc _
    · exact hj _)

theorem sel_pass_trace {γ : Type} (sel : Ev → Option γ) (env : ExecEnv) (b : Benchmark)
    (hw : ∀ q d cb i, sel (Ev.clEnqueueWriteBuffer q d cb i) = none)
    (hc : ∀ t, sel (Ev.g_thread_create t) = none) (hj : ∀ t, sel (Ev.g_thread_join t) = none) :
    (pass_trace env b).filterMap sel = [] :=
  List.filterMap_eq_nil_iff.2 (fun e he => by
    obtain ⟨k, hk⟩ := mem_pass_trace he
    rcases mem_pass_round_trace hk with rfl | ⟨j, _, rfl | rfl⟩
    · exact hw _ _ _ _
    · exact hc _
    · exact hj _)

theorem names_setup_trace (ocl : opencl_desc) (settings : Settings) (nx : Nat) :
    names (setup_trace ocl settings nx)
      = ([nx] ++ nm_kernels ocl nx)
        ++ (List.range ocl.num_devices).map (fun j => nx + 2 + j)
        ++ (nm_single ocl settings nx ++ nm_multi ocl settings nx ++ nm_host ocl settings nx)
        ++ (nm_events ocl settings nx ++ nm_read ocl settings nx ++ nm_write ocl settings nx)
        ++ nm_images ocl settings nx
        ++ (nm_dev_in ocl settings nx ++ nm_dev_out ocl settings nx)
        ++ nm_buffers ocl settings nx := by
  simp only [names, setup_trace, List.filterMap_append, named_malloc_ev,
    filterMap_flatMap_range, List.filterMap_map, nm_kernels, nm_single, nm_multi, nm_host,
    nm_events, nm_read, nm_write, nm_images, nm_dev_in, nm_dev_out, nm_buffers]
  have hk : ∀ n, List.filterMap (Ev.named ∘ fun j => Ev.clCreateKernel (nx + 2 + j))
      (List.range n) = List.map (fun j => nx + 2 + j) (List.range n) := by
    intro n
    induction n with
    | zero => rfl
    | succ n ih =>
      rw [List.range_succ, List.filterMap_append, List.map_append, ih]
      rfl
  rw [hk]
  rfl

theorem mallocs_setup_trace (ocl : opencl_desc) (settings : Settings) (nx : Nat) :
    mallocs (setup_trace ocl settings nx)
      = ([nx] ++ nm_kernels ocl nx)
        ++ (nm_single ocl settings nx ++ nm_multi ocl settings nx ++ nm_host ocl settings nx)
        ++ (nm_events ocl settings nx ++ nm_read ocl settings nx ++ nm_write ocl settings nx)
        ++ nm_images ocl settings nx
        ++ (nm_dev_in ocl settings nx ++ nm_dev_out ocl settings nx) := by
  have hk : ((List.range ocl.num_devices).map
      (fun j => Ev.clCreateKernel (nx + 2 + j))).filterMap Ev.allocated = [] :=
    filterMap_map_none _ _ _ (fun _ => rfl)
  have hb : ∀ (g h : Nat → Nat) (sz : Nat), ((List.range ocl.num_devices).flatMap (fun j =>
      [Ev.clCreateBuffer (g j) sz, Ev.clCreateBuffer (h j) sz])).filterMap Ev.allocated = [] :=
    fun g h sz => filterMap_flatMap_none _ _ _ (fun a e he => by
      simp only [List.mem_cons, List.mem_singleton, List.not_mem_nil, or_false] at he
      rcases he with rfl | rfl <;> rfl)
  simp only [mallocs, setup_trace, List.filterMap_append, allocated_malloc_ev,
    filterMap_flatMap_range, hk, hb, nm_kernels, nm_single, nm_multi, nm_host,
    nm_events, nm_read, nm_write, nm_images, nm_dev_in, nm_dev_out, List.append_nil]
  rfl

theorem buffers_setup_trace (ocl : opencl_desc) (settings : Settings) (nx : Nat) :
    buffers (setup_trace ocl settings nx) = nm_buffers ocl settings nx := by
  have hk : ((List.range ocl.num_devices).map
      (fun j => Ev.clCreateKernel (nx + 2 + j))).filterMap Ev.created = [] :=
    filterMap_map_none _ _ _ (fun _ => rfl)
  have hi : ∀ (n : Nat) (f g h : Nat → Nat) (sz : Nat), ((List.range n).flatMap (fun j =>
      malloc_ev (f j) sz ++ malloc_ev (g j) sz ++ malloc_ev (h j) sz)).filterMap Ev.created
        = [] :=
    fun n f g h sz => filterMap_flatMap_none _ _ _ (fun a e he => by
      simp only [List.mem_append] at he
      rcases he with (he | he) | he <;> rw [mem_malloc_ev he] <;> rfl)
  simp only [buffers, setup_trace, List.filterMap_append, created_malloc_ev, hk, hi,
    filterMap_flatMap_range, nm_buffers, List.append_nil, List.nil_append]
  rfl

theorem frees_teardown_trace (ocl : opencl_desc) (settings : Settings) (nx : Nat)
    (hnx : nx ≠ 0) :
    frees (teardown_trace (setup_result ocl settings nx))
      = nm_images ocl settings nx
        ++ (nm_host ocl settings nx ++ nm_single ocl settings nx ++ nm_multi ocl settings nx
          ++ nm_dev_in ocl settings nx ++ nm_dev_out ocl settings nx
          ++ nm_events ocl settings nx ++ nm_read ocl settings nx ++ nm_write ocl settings nx
          ++ [nx]) := by
  have hr : ∀ (n : Nat) (g h : Nat → Nat), ((List.range n).flatMap (fun j =>
      [Ev.clReleaseMemObject (g j), Ev.clReleaseMemObject (h j)])).filterMap Ev.freed = [] :=
    fun n g h => filterMap_flatMap_none _ _ _ (fun a e he => by
      simp only [List.mem_cons, List.mem_singleton, List.not_mem_nil, or_false] at he
      rcases he with rfl | rfl <;> rfl)
  have hself : (free_ev nx).filterMap Ev.freed = [nx] := by
    simp [free_ev, hnx, Ev.freed]
  have himg : ((List.range (resolve_num_images ocl settings)).flatMap (fun i =>
      free_ev ((setup_result ocl settings nx).host_data.elem i).ptr
        ++ free_ev ((setup_result ocl settings nx).single_result.elem i)
        ++ free_ev ((setup_result ocl settings nx).multi_result.elem i))).filterMap Ev.freed
        = nm_images ocl settings nx := by
    rw [filterMap_flatMap_range]
    unfold nm_images
    refine flatMap_range_congr _ _ _ (fun j hj => ?_)
    simp only [setup_result, hj, if_true, List.filterMap_append]
    rw [freed_free_ev _ _ (by omega), freed_free_ev _ _ (by omega), freed_free_ev _ _ (by omega)]
  unfold frees teardown_trace
  rw [List.filterMap_append, List.filterMap_append]
  have hn : (setup_result ocl settings nx).num_images = resolve_num_images ocl settings := rfl
  rw [hn, himg, hr, List.append_nil]
  simp only [setup_result, List.filterMap_append, hself, nm_host, nm_single, nm_multi,
    nm_dev_in, nm_dev_out, nm_events, nm_read, nm_write]
  rw [freed_free_ev _ _ (by omega), freed_free_ev _ _ (by omega), freed_free_ev _ _ (by omega),
    freed_free_ev _ _ (by omega), freed_free_ev _ _ (by omega), freed_free_ev _ _ (by omega),
    freed_free_ev _ _ (by omega), freed_free_ev _ _ (by omega)]

theorem releases_teardown_trace (ocl : opencl_desc) (settings : Settings) (nx : Nat) :
    releases (teardown_trace (setup_result ocl settings nx)) = nm_buffers ocl settings nx := by
  have hi : ∀ (n : Nat) (f g h : Nat → Nat), ((List.range n).flatMap (fun j =>
      free_ev (f j) ++ free_ev (g j) ++ free_ev (h j))).filterMap Ev.released = [] :=
    fun n f g h => filterMap_flatMap_none _ _ _ (fun a e he => by
      simp only [List.mem_append] at he
      rcases he with (he | he) | he <;> rw [mem_free_ev he] <;> rfl)
  unfold releases teardown_trace
  simp only [List.filterMap_append, released_free_ev, hi, List.append_nil, List.nil_append]
  rw [filterMap_flatMap_range]
  unfold nm_buffers
  refine flatMap_range_congr _ _ _ (fun j hj => ?_)
  have hj2 : j < ocl.num_devices := hj
  simp [setup_result, hj2, Ev.released]

theorem names_setup_seg (ocl : opencl_desc) (settings : Settings) (nx : Nat) :
    Seg nx (nx + setup_names ocl settings) (names (setup_trace ocl settings nx)) := by
  rw [names_setup_trace]
  have s1 : Seg nx (nx + 2) ([nx] ++ nm_kernels ocl nx) :=
    seg_append (seg_singleton (Nat.le_refl _) (Nat.lt_succ_self _)) (seg_malloc_names _ _)
  have s2 : Seg (nx + 2) (nx + 2 + ocl.num_devices)
      ((List.range ocl.num_devices).map (fun j => nx + 2 + j)) := by
    have h := seg_flatMap 1 (nx + 2) ocl.num_devices (fun j => [nx + 2 + j])
      (fun j => seg_singleton (by omega) (by omega))
    rw [Nat.one_mul] at h
    have e : (List.range ocl.num_devices).flatMap (fun j => [nx + 2 + j])
        = (List.range ocl.num_devices).map (fun j => nx + 2 + j) := by
      induction ocl.num_devices with
      | zero => rfl
      | succ n ih => simp [List.range_succ, List.flatMap_append, ih]
    rw [← e]
    exact h
  have s3 : Seg (nx + 2 + ocl.num_devices) (nx + 2 + ocl.num_devices + 3)
      (nm_single ocl settings nx ++ nm_multi ocl settings nx ++ nm_host ocl settings nx) :=
    seg_append (seg_append (seg_malloc_names _ _) (seg_malloc_names _ _)) (seg_malloc_names _ _)
  have s4 : Seg (nx + 2 + ocl.num_devices + 3) (nx + 2 + ocl.num_devices + 3 + 3)
      (nm_events ocl settings nx ++ nm_read ocl settings nx ++ nm_write ocl settings nx) :=
    seg_append (seg_append (seg_malloc_names _ _) (seg_malloc_names _ _)) (seg_malloc_names _ _)
  have s5 : Seg (nx + 2 + ocl.num_devices + 3 + 3)
      (nx + 2 + ocl.num_devices + 3 + 3 + 3 * resolve_num_images ocl settings)
      (nm_images ocl settings nx) :=
    seg_flatMap 3 _ _ _ (fun j =>
      seg_mono (seg_append (seg_append (seg_malloc_names _ _) (seg_malloc_names _ _))
        (seg_malloc_names _ _)) (Nat.le_refl _) (by omega))
  have s6 : Seg (nx + 2 + ocl.num_devices + 3 + 3 + 3 * resolve_num_images ocl settings)
      (nx + 2 + ocl.num_devices + 3 + 3 + 3 * resolve_num_images ocl settings + 2)
      (nm_dev_in ocl settings nx ++ nm_dev_out ocl settings nx) :=
    seg_append (seg_malloc_names _ _) (seg_malloc_names _ _)
  have s7 : Seg (nx + 2 + ocl.num_devices + 3 + 3 + 3 * resolve_num_images ocl settings + 2)
      (nx + 2 + ocl.num_devices + 3 + 3 + 3 * resolve_num_images ocl settings + 2
        + 2 * ocl.num_devices)
      (nm_buffers ocl settings nx) :=
    seg_flatMap 2 _ _ _ (fun j =>
      seg_mono (seg_append (seg_singleton (Nat.le_refl _) (Nat.lt_succ_self _))
        (seg_singleton (Nat.le_refl _) (Nat.lt_succ_self _))) (Nat.le_refl _) (by omega))
  exact seg_mono
    (seg_append (seg_append (seg_append (seg_append (seg_append (seg_append s1 s2) s3) s4) s5)
      s6) s7) (Nat.le_refl _) (by unfold setup_names; omega)

theorem count_names_ge (x : Nat) (t : List Ev) :
    (mallocs t).count x + (buffers t).count x ≤ (names t).count x := by
  induction t with
  | nil => simp [mallocs, buffers, names]
  | cons e t ih =>
    unfold mallocs buffers names at *
    cases e <;>
      simp only [List.filterMap_cons, Ev.allocated, Ev.created, Ev.named, List.count_cons] <;>
      first
        | exact ih
        | (split <;> omega)

theorem sel_main_setup {γ : Type} (sel : Ev → Option γ) (env : Env) (ocl : opencl_desc)
    (settings : Settings)
    (hw : ∀ q d cb i, sel (Ev.clEnqueueWriteBuffer q d cb i) = none)
    (hc : ∀ t, sel (Ev.g_thread_create t) = none) (hj : ∀ t, sel (Ev.g_thread_join t) = none)
    (hcall : ∀ s, sel (Ev.call s) = none) (ho : sel Ev.ocl_free = none)
    (ht : (teardown_trace (setup_result ocl settings 1)).filterMap sel = []) :
    (main_trace env ocl settings).filterMap sel
      = (setup_trace ocl settings 1).filterMap sel := by
  simp only [main_trace, List.filterMap_append, sel_copy_trace sel _ _ hw hc hj,
    sel_pass_trace sel _ _ hw hc hj, ht, List.filterMap_cons, List.filterMap_nil, hcall, ho,
    List.append_nil]

theorem sel_main_teardown {γ : Type} (sel : Ev → Option γ) (env : Env) (ocl : opencl_desc)
    (settings : Settings)
    (hw : ∀ q d cb i, sel (Ev.clEnqueueWriteBuffer q d cb i) = none)
    (hc : ∀ t, sel (Ev.g_thread_create t) = none) (hj : ∀ t, sel (Ev.g_thread_join t) = none)
    (hcall : ∀ s, sel (Ev.call s) = none) (ho : sel Ev.ocl_free = none)
    (hs : (setup_trace ocl settings 1).filterMap sel = []) :
    (main_trace env ocl settings).filterMap sel
      = (teardown_trace (setup_result ocl settings 1)).filterMap sel := by
  simp only [main_trace, List.filterMap_append, sel_copy_trace sel _ _ hw hc hj,
    sel_pass_trace sel _ _ hw hc hj, hs, List.filterMap_cons, List.filterMap_nil, hcall, ho,
    List.append_nil, List.nil_append]

theorem sel_setup_none {γ : Type} (sel : Ev → Option γ) (ocl : opencl_desc)
    (settings : Settings) (nx : Nat) (hm : ∀ p s, sel (Ev.g_malloc0 p s) = none)
    (hk : ∀ k, sel (Ev.clCreateKernel k) = none)
    (hb : ∀ m s, sel (Ev.clCreateBuffer m s) = none) :
    (setup_trace ocl settings nx).filterMap sel = [] :=
  List.filterMap_eq_nil_iff.2 (fun e h => by
    simp only [setup_trace, List.mem_append, List.mem_map, List.mem_flatMap, List.mem_cons,
      List.mem_singleton, List.not_mem_nil, or_false] at h
    rcases h with ((((((h | h) | ⟨j, _, h⟩) | ((h | h) | h)) | ((h | h) | h)) |
      ⟨j, _, ((h | h) | h)⟩) | (h | h)) | ⟨j, _, (h | h)⟩
    all_goals first
      | (rw [mem_malloc_ev h]; exact hm _ _)
      | (subst h; first | exact hm _ _ | exact hk _ | exact hb _ _))

theorem sel_teardown_none {γ : Type} (sel : Ev → Option γ) (b : Benchmark)
    (hf : ∀ p, sel (Ev.g_free p) = none) (hr : ∀ m, sel (Ev.clReleaseMemObject m) = none) :
    (teardown_trace b).filterMap sel = [] :=
  List.filterMap_eq_nil_iff.2 (fun e h => by
    simp only [teardown_trace, List.mem_append, List.mem_flatMap, List.mem_cons,
      List.mem_singleton, List.not_mem_nil, or_false] at h
    rcases h with (⟨j, _, ((h | h) | h)⟩ | ⟨j, _, (h | h)⟩) |
      ((((((((h | h) | h) | h) | h) | h) | h) | h) | h)
    all_goals first
      | (rw [mem_free_ev h]; exact hf _)
      | (subst h; exact hr _))

theorem mem_malloc_names_of_ptr {x k sz : Nat} (hx : x ≠ 0) (h : x = malloc_ptr k sz) :
    x ∈ malloc_names k sz := by
  unfold malloc_ptr at h
  unfold malloc_names
  by_cases hsz : sz = 0
  · rw [if_pos hsz] at h; exact absurd h hx
  · rw [if_neg hsz] at h; rw [if_neg hsz, h]; exact List.mem_singleton.2 rfl

theorem owned_block_freed (ocl : opencl_desc) (settings : Settings) (x : Nat)
    (h : (setup_result ocl settings 1).OwnsBlock x) :
    x ∈ frees (teardown_trace (setup_result ocl settings 1)) := by
  rw [frees_teardown_trace _ _ _ (by decide)]
  obtain ⟨hx, h⟩ := h
  simp only [List.mem_append]
  rcases h with ⟨i, hi, h⟩ | h | h | h
  · left
    have hi2 : i < resolve_num_images ocl settings := hi
    unfold nm_images
    refine List.mem_flatMap.2 ⟨i, List.mem_range.2 hi2, ?_⟩
    simp only [setup_result, hi2, if_true] at h
    simp only [List.mem_append]
    rcases h with h | h | h
    · exact Or.inl (Or.inl (mem_malloc_names_of_ptr hx h))
    · exact Or.inl (Or.inr (mem_malloc_names_of_ptr hx h))
    · exact Or.inr (mem_malloc_names_of_ptr hx h)
  · right; left; left; left; left; left; left; left; left
    exact mem_malloc_names_of_ptr hx h
  · right; left; left; left; left; left; left; left; right
    exact mem_malloc_names_of_ptr hx h
  · right; left; left; left; left; left; left; right
    exact mem_malloc_names_of_ptr hx h

theorem owned_buffer_released (ocl : opencl_desc) (settings : Settings) (x : Nat)
    (h : (setup_result ocl settings 1).OwnsBuffer x) :
    x ∈ releases (teardown_trace (setup_result ocl settings 1)) := by
  rw [releases_teardown_trace]
  obtain ⟨d, hd, h⟩ := h
  have hd2 : d < ocl.num_devices := hd
  unfold nm_buffers
  refine List.mem_flatMap.2 ⟨d, List.mem_range.2 hd2, ?_⟩
  simp only [setup_result, hd2, if_true] at h
  simp only [List.mem_cons, List.mem_singleton, List.not_mem_nil, or_false]
  exact h

theorem count_frees_le_mallocs (ocl : opencl_desc) (settings : Settings) (x : Nat) :
    (frees (teardown_trace (setup_result ocl settings 1))).count x
      ≤ (mallocs (setup_trace ocl settings 1)).count x := by
  rw [frees_teardown_trace _ _ _ (by decide), mallocs_setup_trace]
  simp only [List.count_append]
  omega

theorem count_mallocs_eq (ocl : opencl_desc) (settings : Settings) (x : Nat) :
    (mallocs (setup_trace ocl settings 1)).count x
      = (nm_kernels ocl 1).count x
        + (frees (teardown_trace (setup_result ocl settings 1))).count x := by
  rw [frees_teardown_trace _ _ _ (by decide), mallocs_setup_trace]
  simp only [List.count_append]
  omega

/-! ## The claims -/

theorem success_copy_succeeds : Env.success.copy.Succeeds :=
  ⟨fun _ _ => rfl, fun _ _ => ⟨rfl, rfl, rfl⟩⟩

theorem success_pass_through_succeeds : Env.success.pass_through.Succeeds :=
  ⟨fun _ _ => rfl, fun _ _ => ⟨rfl, rfl, rfl⟩⟩

theorem success_succeeds : Env.success.Succeeds :=
  ⟨⟨by decide, fun _ => rfl, fun _ => rfl, fun _ => rfl⟩, success_copy_succeeds,
    success_pass_through_succeeds, ⟨fun _ => rfl, fun _ => rfl⟩⟩

/-- C1. When no checked call fails, `execute_copy` issues for every image `i` exactly one
upload on each queue `j` into the input buffer of device `j` (so `num_devices` uploads for
each image), `execute_pass_through` issues for every image exactly one upload, on queue 0
into the input buffer of device 0; every upload has `image_size` bytes; the totals are
`num_images * num_devices` and `num_images`. -/
theorem upload_counts (env : ExecEnv) (b : Benchmark) (henv : env.Succeeds) :
    (∀ i, i < b.num_images →
      uploads_of i (execute_copy env (some b) Proc.init).trace
        = (List.range b.ocl.num_devices).map
            (fun j => Ev.clEnqueueWriteBuffer j j b.image_size i)) ∧
    (∀ i, i < b.num_images →
      (uploads_of i (execute_copy env (some b) Proc.init).trace).length = b.ocl.num_devices) ∧
    (∀ i, i < b.num_images →
      uploads_of i (execute_pass_through env (some b) Proc.init).trace
        = [Ev.clEnqueueWriteBuffer 0 0 b.image_size i]) ∧
    (uploads (execute_copy env (some b) Proc.init).trace).length
      = b.num_images * b.ocl.num_devices ∧
    (uploads (execute_pass_through env (some b) Proc.init).trace).length = b.num_images := by
  simp only [Proc.init, execute_copy_eq henv, execute_pass_through_eq henv, List.nil_append]
  refine ⟨fun i hi => uploads_of_copy_trace env b i hi, fun i hi => ?_,
    fun i hi => uploads_of_pass_trace env b i hi, uploads_copy_length env b,
    uploads_pass_length env b⟩
  rw [uploads_of_copy_trace env b i hi, List.length_map, List.length_range]

/-- C1, witness: width 2, height 2, one image, one device: one upload of 16 bytes, which
is 4 floats, under either strategy. -/
theorem upload_counts_witness :
    Env.success.copy.Succeeds ∧
    uploads (execute_copy Env.success.copy (some (benchmark_of ⟨1⟩ ⟨1, 2, 2⟩)) Proc.init).trace
      = [Ev.clEnqueueWriteBuffer 0 0 (4 * sizeof_gfloat) 0] ∧
    uploads (execute_pass_through Env.success.copy (some (benchmark_of ⟨1⟩ ⟨1, 2, 2⟩))
        Proc.init).trace
      = [Ev.clEnqueueWriteBuffer 0 0 (4 * sizeof_gfloat) 0] ∧
    (uploads (execute_copy Env.success.copy (some (benchmark_of ⟨1⟩ ⟨1, 2, 2⟩))
        Proc.init).trace).length
      = (benchmark_of ⟨1⟩ ⟨1, 2, 2⟩).num_images * (benchmark_of ⟨1⟩ ⟨1, 2, 2⟩).ocl.num_devices :=
  ⟨success_copy_succeeds, by decide, by decide,
    (upload_counts Env.success.copy (benchmark_of ⟨1⟩ ⟨1, 2, 2⟩) success_copy_succeeds).2.2.2.1⟩

/-- C2, as stated, fails for `execute_copy` with two devices: in round 0 the worker of
device 0 is created (position 1 of the trace) before the upload into the input buffer of
device 1 is issued (position 2). -/
theorem copy_spawns_before_later_upload :
    ¬ UploadsPrecedeSpawns
      (execute_copy Env.success.copy (some (benchmark_of ⟨2⟩ ⟨1, 2, 2⟩)) Proc.init).trace := by
  intro h
  have h2 := h 1 2
    (Ev.g_thread_create (new_thread Env.success.copy (benchmark_of ⟨2⟩ ⟨1, 2, 2⟩) 0 ⟨0, 0⟩))
    (Ev.clEnqueueWriteBuffer 1 1 16 0) (by decide) (by decide) rfl rfl rfl
  omega

/-- C2, amended. When no checked call fails: in `execute_pass_through` the upload of a
round comes before every worker creation of that round; in `execute_copy` the upload of a
round into the input buffer of device `d` comes before the creation of the worker of
device `d` in that round, and after the creation of the workers of the devices before
`d`. -/
theorem uploads_before_spawns (env : ExecEnv) (b : Benchmark) (henv : env.Succeeds) :
    UploadsPrecedeSpawns (execute_pass_through env (some b) Proc.init).trace ∧
    OwnUploadPrecedesSpawn (execute_copy env (some b) Proc.init).trace ∧
    EarlierSpawnsPrecedeUpload (execute_copy env (some b) Proc.init).trace := by
  simp only [Proc.init, execute_copy_eq henv, execute_pass_through_eq henv, List.nil_append]
  refine ⟨?_, ?_, ?_⟩
  · intro p q s u hp hq hs hu hr
    refine position_lt_of_key_lt (pass_trace_sorted env b) hq hp ?_
    cases s <;> simp [Ev.isSpawn] at hs
    cases u <;> simp [Ev.isUpload] at hu
    simp only [Ev.round] at hr
    simp [pass_key, lex_lt, hr]
  · intro p q th cq cb hp hq
    refine position_lt_of_key_lt (copy_trace_sorted env b) hq hp ?_
    simp [copy_key, lex_lt]
  · intro p q th cq d cb hp hq hlt
    refine position_lt_of_key_lt (copy_trace_sorted env b) hp hq ?_
    right
    refine ⟨rfl, Or.inr ⟨rfl, ?_⟩⟩
    show 2 * th.data.thread_id + 1 < 2 * d
    omega

/-- C2, witness: two devices, one image. -/
theorem uploads_before_spawns_witness :
    Env.success.copy.Succeeds ∧
    UploadsPrecedeSpawns
      (execute_pass_through Env.success.copy (some (benchmark_of ⟨2⟩ ⟨1, 2, 2⟩)) Proc.init).trace ∧
    OwnUploadPrecedesSpawn
      (execute_copy Env.success.copy (some (benchmark_of ⟨2⟩ ⟨1, 2, 2⟩)) Proc.init).trace ∧
    EarlierSpawnsPrecedeUpload
      (execute_copy Env.success.copy (some (benchmark_of ⟨2⟩ ⟨1, 2, 2⟩)) Proc.init).trace :=
  ⟨success_copy_succeeds,
    uploads_before_spawns Env.success.copy (benchmark_of ⟨2⟩ ⟨1, 2, 2⟩) success_copy_succeeds⟩

/-- C4. When no checked call fails, both strategies run to completion, and in both every
round creates exactly one worker for each device index `0`, ..., `num_devices - 1`, joins
exactly the workers it created, after all of them were created, and every upload or worker
creation of a later round comes after every join of an earlier round. -/
theorem rounds_fork_join (env : ExecEnv) (b : Benchmark) (henv : env.Succeeds) :
    (execute_copy env (some b) Proc.init).alive = true ∧
    ForkJoin b.ocl.num_devices b.num_images (execute_copy env (some b) Proc.init).trace ∧
    (execute_pass_through env (some b) Proc.init).alive = true ∧
    ForkJoin b.ocl.num_devices b.num_images
      (execute_pass_through env (some b) Proc.init).trace := by
  simp only [Proc.init, execute_copy_eq henv, execute_pass_through_eq henv, List.nil_append]
  refine ⟨trivial, ?_, trivial, ?_⟩
  · refine forkJoin_of_sorted copy_key _ _ _ (copy_trace_sorted env b) (fun i hi => ?_)
      (fun i hi => ?_) (fun e => ?_) (fun e he => ?_) (fun e he => ?_)
    · rw [spawned_copy_trace env b i hi]
      exact map_thread_id_range _ _ (fun j => rfl)
    · rw [spawned_copy_trace env b i hi, joined_copy_trace env b i hi]
    · cases e <;> rfl
    · cases e <;> simp [Ev.isJoin] at he; rfl
    · cases e <;> simp [Ev.isSpawn] at he; rfl
  · refine forkJoin_of_sorted pass_key _ _ _ (pass_trace_sorted env b) (fun i hi => ?_)
      (fun i hi => ?_) (fun e => ?_) (fun e he => ?_) (fun e he => ?_)
    · rw [spawned_pass_trace env b i hi]
      exact map_thread_id_range _ _ (fun j => rfl)
    · rw [spawned_pass_trace env b i hi, joined_pass_trace env b i hi]
    · cases e <;> rfl
    · cases e <;> simp [Ev.isJoin] at he; rfl
    · cases e <;> simp [Ev.isSpawn] at he; rfl

/-- C4, witness: two devices, one image. -/
theorem rounds_fork_join_witness :
    Env.success.copy.Succeeds ∧
    ForkJoin 2 1
      (execute_copy Env.success.copy (some (benchmark_of ⟨2⟩ ⟨1, 2, 2⟩)) Proc.init).trace ∧
    ForkJoin 2 1
      (execute_pass_through Env.success.copy (some (benchmark_of ⟨2⟩ ⟨1, 2, 2⟩))
        Proc.init).trace :=
  ⟨success_copy_succeeds,
    (rounds_fork_join Env.success.copy (benchmark_of ⟨2⟩ ⟨1, 2, 2⟩) success_copy_succeeds).2.1,
    (rounds_fork_join Env.success.copy (benchmark_of ⟨2⟩ ⟨1, 2, 2⟩) success_copy_succeeds).2.2.2⟩

/-- C3. For every device count below `2 ^ 28` (so that `16 * num_devices` fits the `guint`
field), a successful `setup_benchmark` resolves the image count to `16 * num_devices` when
the configured `num_images` is the sentinel, that is negative (the default is `-1`), and
to the configured value unchanged otherwise; the sentinel resolves to 64 with 4 devices
and to 16 with 1 device, and a configured value above 0 is kept. -/
theorem resolved_images (env : Env) (ocl : opencl_desc) (settings : Settings)
    (henv : env.SetupSucceeds) (hdev : ocl.num_devices < 2 ^ 28) :
    ∃ b, (setup_benchmark env ocl settings Proc.init).1 = some b ∧
      (settings.num_images = -1 → b.num_images = 16 * ocl.num_devices) ∧
      (settings.num_images < 0 → b.num_images = 16 * ocl.num_devices) ∧
      (settings.num_images < 0 → ocl.num_devices = 4 → b.num_images = 64) ∧
      (settings.num_images < 0 → ocl.num_devices = 1 → b.num_images = 16) ∧
      (¬ settings.num_images < 0 → (b.num_images : Int) = settings.num_images) ∧
      (0 < settings.num_images → (b.num_images : Int) = settings.num_images) := by
  refine ⟨setup_result ocl settings 1, ?_, ?_⟩
  · simp only [Proc.init, setup_benchmark_eq henv]
  · have hfit : ocl.num_devices * 16 < 4294967296 := by
      have h28 : (2 : Nat) ^ 28 = 268435456 := by decide
      omega
    have hneg : settings.num_images < 0 →
        (setup_result ocl settings 1).num_images = 16 * ocl.num_devices := by
      intro h
      simp only [setup_result, resolve_num_images, h, if_true, GUINT_MOD]
      rw [show (2 : Nat) ^ 32 = 4294967296 by decide, Nat.mod_eq_of_lt hfit, Nat.mul_comm]
    have hpos : ¬ settings.num_images < 0 →
        ((setup_result ocl settings 1).num_images : Int) = settings.num_images := by
      intro h
      simp [setup_result, resolve_num_images, h, Int.toNat_of_nonneg (by omega : 0 ≤ settings.num_images)]
    refine ⟨fun h => hneg (by omega), hneg, fun h h4 => ?_, fun h h1 => ?_, hpos,
      fun h => hpos (by omega)⟩
    · rw [hneg h, h4]
    · rw [hneg h, h1]

/-- C3, witness: the default with 4 devices, and 5 images configured with 1 device. -/
theorem resolved_images_witness :
    Env.success.SetupSucceeds ∧ (4 : Nat) < 2 ^ 28 ∧
    (setup_benchmark Env.success ⟨4⟩ ⟨-1, 2, 2⟩ Proc.init).1.map Benchmark.num_images
      = some 64 ∧
    (setup_benchmark Env.success ⟨1⟩ ⟨5, 2, 2⟩ Proc.init).1.map Benchmark.num_images
      = some 5 := by
  refine ⟨success_succeeds.1, by decide, ?_, ?_⟩
  · obtain ⟨b, hb, _, _, h4, _⟩ :=
      resolved_images Env.success ⟨4⟩ ⟨-1, 2, 2⟩ success_succeeds.1 (by decide)
    rw [hb, Option.map_some', h4 (by decide) rfl]
  · obtain ⟨b, hb, _, _, _, _, _, hpos⟩ :=
      resolved_images Env.success ⟨1⟩ ⟨5, 2, 2⟩ success_succeeds.1 (by decide)
    have h5 : (b.num_images : Int) = 5 := hpos (by decide)
    rw [hb, Option.map_some']
    congr 1
    exact Int.ofNat_inj.1 h5

/-- C7, as stated, fails when `width * height` does not fit a `guint`: for a 65536 by 65536
image the computed `image_size` is `0`, not `4 * 65536 * 65536`. -/
theorem image_size_wraps :
    (setup_benchmark Env.success ⟨1⟩ ⟨1, 65536, 65536⟩ Proc.init).1.map
        Benchmark.image_size = some 0 ∧
    (0 : Nat) ≠ 4 * 65536 * 65536 := by
  constructor
  · simp only [Proc.init, setup_benchmark_eq success_succeeds.1, Option.map_some',
      setup_result]
    decide
  · decide

/-- C7, amended. A successful run computes `image_size = 4 * ((width * height) mod 2 ^ 32)`,
which is `4 * width * height` when `width * height < 2 ^ 32`; every device buffer is
created with that size and every upload of both strategies transfers that many bytes. -/
theorem image_size_value (env : Env) (ocl : opencl_desc) (settings : Settings)
    (henv : env.Succeeds) :
    ∃ b, (setup_benchmark env ocl settings Proc.init).1 = some b ∧
      b.image_size = 4 * ((settings.width * settings.height) % 2 ^ 32) ∧
      (settings.width * settings.height < 2 ^ 32 →
        b.image_size = 4 * settings.width * settings.height) ∧
      (∀ m sz, Ev.clCreateBuffer m sz ∈ (main env ocl settings).trace → sz = b.image_size) ∧
      (∀ q d cb i, Ev.clEnqueueWriteBuffer q d cb i ∈ (main env ocl settings).trace →
        cb = b.image_size) := by
  refine ⟨setup_result ocl settings 1, ?_, ?_, ?_, ?_, ?_⟩
  · simp only [Proc.init, setup_benchmark_eq henv.1]
  · simp [setup_result, compute_image_size, GUINT_MOD, sizeof_gfloat, Nat.mul_comm]
  · intro h
    have h2 : settings.width * settings.height % 4294967296
        = settings.width * settings.height := Nat.mod_eq_of_lt h
    simp only [setup_result, compute_image_size, GUINT_MOD, sizeof_gfloat]
    rw [show (2 : Nat) ^ 32 = 4294967296 by decide, h2, Nat.mul_comm, Nat.mul_assoc]
  · intro m sz h
    rw [main_eq henv] at h
    simp only [main_trace, List.mem_append, List.mem_cons, List.mem_singleton,
      List.not_mem_nil, or_false] at h
    rcases h with (((h | h | h) | h | h) | h) | h
    · exact create_size_setup h
    · cases h
    · exact absurd h create_not_mem_copy
    · cases h
    · exact absurd h create_not_mem_pass
    · exact absurd h create_not_mem_teardown
    · cases h
  · intro q d cb i h
    rw [main_eq henv] at h
    simp only [main_trace, List.mem_append, List.mem_cons, List.mem_singleton,
      List.not_mem_nil, or_false] at h
    rcases h with (((h | h | h) | h | h) | h) | h
    · exact absurd h write_not_mem_setup
    · cases h
    · exact write_size_copy h
    · cases h
    · exact write_size_pass h
    · exact absurd h write_not_mem_teardown
    · cases h

/-- C7, witness: a 2 by 2 image on one device has `image_size = 16`. -/
theorem image_size_value_witness :
    Env.success.Succeeds ∧
    (setup_benchmark Env.success ⟨1⟩ ⟨1, 2, 2⟩ Proc.init).1.map Benchmark.image_size
      = some 16 := by
  refine ⟨success_succeeds, ?_⟩
  obtain ⟨b, hb, _, h2, _⟩ := image_size_value Env.success ⟨1⟩ ⟨1, 2, 2⟩ success_succeeds
  rw [hb, Option.map_some', h2 (by decide)]
  rfl

/-- C8, as stated, fails when `width * height` does not fit a `guint`: for one 65536 by
65536 image the host matrix is allocated with 0 bytes and the fill loop writes no element,
not `65536 * 65536` elements. -/
theorem host_image_wraps :
    (setup_benchmark Env.success ⟨1⟩ ⟨1, 65536, 65536⟩ Proc.init).1.map
        (fun b => ((b.host_data.elem 0).n_bytes / sizeof_gfloat,
          (b.host_data.elem 0).stored.length)) = some (0, 0) ∧
    (0 : Nat) ≠ 65536 * 65536 := by
  constructor
  · simp only [Proc.init, setup_benchmark_eq success_succeeds.1, Option.map_some',
      setup_result]
    decide
  · decide

/-- C8, amended. A successful `setup_benchmark` fills exactly the slots
`0`, ..., `num_images - 1` of `host_data` (with `num_images` the configured value when that
is positive); each of these matrices is allocated with room for
`(width * height) mod 2 ^ 32` floats and the fill loop assigns exactly the indices below
that number, each once; this number is `width * height` when `width * height < 2 ^ 32`. -/
theorem host_images (env : Env) (ocl : opencl_desc) (settings : Settings)
    (henv : env.SetupSucceeds) :
    ∃ b, (setup_benchmark env ocl settings Proc.init).1 = some b ∧
      (0 < settings.num_images → (b.num_images : Int) = settings.num_images) ∧
      (∀ i, i < b.num_images →
        (b.host_data.elem i).n_bytes / sizeof_gfloat
          = (settings.width * settings.height) % 2 ^ 32 ∧
        (b.host_data.elem i).stored
          = List.range ((settings.width * settings.height) % 2 ^ 32) ∧
        (b.host_data.elem i).stored.length = (b.host_data.elem i).n_bytes / sizeof_gfloat) ∧
      (∀ i, b.num_images ≤ i → (b.host_data.elem i).n_bytes = 0 ∧
        (b.host_data.elem i).stored = []) ∧
      (settings.width * settings.height < 2 ^ 32 → ∀ i, i < b.num_images →
        (b.host_data.elem i).n_bytes / sizeof_gfloat = settings.width * settings.height ∧
        (b.host_data.elem i).stored = List.range (settings.width * settings.height)) := by
  refine ⟨setup_result ocl settings 1, ?_, ?_, ?_, ?_, ?_⟩
  · simp only [Proc.init, setup_benchmark_eq henv]
  · intro h
    have h2 : ¬ settings.num_images < 0 := by omega
    simp [setup_result, resolve_num_images, h2, Int.toNat_of_nonneg (by omega : 0 ≤ settings.num_images)]
  · intro i hi
    have hi2 : i < resolve_num_images ocl settings := hi
    simp [setup_result, hi2, compute_image_size, GUINT_MOD, sizeof_gfloat]
  · intro i hi
    have hi2 : ¬ i < resolve_num_images ocl settings := Nat.not_lt.2 hi
    simp [setup_result, hi2]
  · intro h i hi
    have hi2 : i < resolve_num_images ocl settings := hi
    have h2 : settings.width * settings.height % 4294967296
        = settings.width * settings.height := Nat.mod_eq_of_lt h
    simp [setup_result, hi2, compute_image_size, GUINT_MOD, sizeof_gfloat, h2]

/-- C8, witness: two images of 2 by 2 elements: both matrices have room for 4 floats and
the indices 0, 1, 2, 3 are assigned. -/
theorem host_images_witness :
    Env.success.SetupSucceeds ∧
    (setup_benchmark Env.success ⟨1⟩ ⟨2, 2, 2⟩ Proc.init).1.map
        (fun b => (b.num_images, (b.host_data.elem 1).n_bytes / sizeof_gfloat,
          (b.host_data.elem 1).stored)) = some (2, 4, [0, 1, 2, 3]) := by
  refine ⟨success_succeeds.1, ?_⟩
  obtain ⟨b, hb, hn, _, _, hw⟩ := host_images Env.success ⟨1⟩ ⟨2, 2, 2⟩ success_succeeds.1
  have h2 : b.num_images = 2 := Int.ofNat_inj.1 (hn (by decide))
  obtain ⟨h3, h4⟩ := hw (by decide) 1 (by omega)
  rw [hb, Option.map_some', h2, h3, h4]
  rfl

/-- C10. In a successful run, in every round `i` and for every device index `d`, the worker
created at place `d` of the round is the worker of device `d`: it binds argument 0 of
kernel `d` to the input buffer of index `d` under `execute_copy` and of index `0` under
`execute_pass_through`, binds argument 1 to the output buffer of device `d`, enqueues
kernel `d` on command queue `d` with 2 dimensions, no offset, the global work size
`(width, height)` and no local work size, and waits for the one event. -/
theorem worker_launch (env : Env) (ocl : opencl_desc) (settings : Settings)
    (henv : env.Succeeds) (i d : Nat) (hi : i < resolve_num_images ocl settings)
    (hd : d < ocl.num_devices) :
    (spawned i (execute_copy env.copy (setup_benchmark env ocl settings Proc.init).1
        Proc.init).trace)[d]?
      = some ⟨i, ⟨d, d⟩,
          [DevOp.clSetKernelArg d 0 (MemRef.dev_data_in d),
            DevOp.clSetKernelArg d 1 (MemRef.dev_data_out d),
            DevOp.clEnqueueNDRangeKernel d d 2 none (settings.width, settings.height) none,
            DevOp.clWaitForEvents 1 (env.copy.worker i d).wait], true⟩ ∧
    (spawned i (execute_pass_through env.pass_through
        (setup_benchmark env ocl settings Proc.init).1 Proc.init).trace)[d]?
      = some ⟨i, ⟨d, 0⟩,
          [DevOp.clSetKernelArg d 0 (MemRef.dev_data_in 0),
            DevOp.clSetKernelArg d 1 (MemRef.dev_data_out d),
            DevOp.clEnqueueNDRangeKernel d d 2 none (settings.width, settings.height) none,
            DevOp.clWaitForEvents 1 (env.pass_through.worker i d).wait], true⟩ := by
  obtain ⟨hs, hc, hp, _⟩ := henv
  simp only [Proc.init, setup_benchmark_eq hs, execute_copy_eq hc, execute_pass_through_eq hp,
    List.nil_append]
  have hn : i < (setup_result ocl settings 1).num_images := hi
  have hdev : d < (setup_result ocl settings 1).ocl.num_devices := hd
  rw [spawned_copy_trace _ _ i hn, spawned_pass_trace _ _ i hn, getElem?_map_range _ hdev,
    getElem?_map_range _ hdev, new_thread_eq hc, new_thread_eq hp]
  exact ⟨rfl, rfl⟩

/-- C10, witness: width 2, height 2, one device, one image: the one worker of round 0
launches with the global work size `(2, 2)` and writes output buffer 0. -/
theorem worker_launch_witness :
    Env.success.Succeeds ∧ 0 < resolve_num_images ⟨1⟩ ⟨1, 2, 2⟩ ∧
    spawned 0 (execute_copy Env.success.copy
        (setup_benchmark Env.success ⟨1⟩ ⟨1, 2, 2⟩ Proc.init).1 Proc.init).trace
      = [⟨0, ⟨0, 0⟩,
          [DevOp.clSetKernelArg 0 0 (MemRef.dev_data_in 0),
            DevOp.clSetKernelArg 0 1 (MemRef.dev_data_out 0),
            DevOp.clEnqueueNDRangeKernel 0 0 2 none (2, 2) none,
            DevOp.clWaitForEvents 1 CL_SUCCESS], true⟩] ∧
    (spawned 0 (execute_pass_through Env.success.pass_through
        (setup_benchmark Env.success ⟨1⟩ ⟨1, 2, 2⟩ Proc.init).1 Proc.init).trace)[0]?
      = some ⟨0, ⟨0, 0⟩,
          [DevOp.clSetKernelArg 0 0 (MemRef.dev_data_in 0),
            DevOp.clSetKernelArg 0 1 (MemRef.dev_data_out 0),
            DevOp.clEnqueueNDRangeKernel 0 0 2 none (2, 2) none,
            DevOp.clWaitForEvents 1 CL_SUCCESS], true⟩ :=
  ⟨success_succeeds, by decide, by decide,
    (worker_launch Env.success ⟨1⟩ ⟨1, 2, 2⟩ success_succeeds 0 0 (by decide) (by decide)).2⟩

/-- C5, evaluated. One device, two images.  When every `clWaitForEvents` returns the
non-success status -14, which `CHECK_ERROR` would treat as fatal, both strategies still
run both rounds to completion; when every `clEnqueueNDRangeKernel` fails, the run ends in
round 0 and the upload of round 1 is never issued. -/
theorem wait_status_is_discarded :
    CHECK_ERROR (-14) = true ∧
    (execute_copy wait_failure (some (benchmark_of ⟨1⟩ ⟨2, 2, 2⟩)) Proc.init).alive = true ∧
    uploads (execute_copy wait_failure (some (benchmark_of ⟨1⟩ ⟨2, 2, 2⟩)) Proc.init).trace
      = [Ev.clEnqueueWriteBuffer 0 0 16 0, Ev.clEnqueueWriteBuffer 0 0 16 1] ∧
    (joined 0 (execute_copy wait_failure (some (benchmark_of ⟨1⟩ ⟨2, 2, 2⟩))
      Proc.init).trace).length = 1 ∧
    (execute_pass_through wait_failure (some (benchmark_of ⟨1⟩ ⟨2, 2, 2⟩))
      Proc.init).alive = true ∧
    uploads (execute_pass_through wait_failure (some (benchmark_of ⟨1⟩ ⟨2, 2, 2⟩))
        Proc.init).trace
      = [Ev.clEnqueueWriteBuffer 0 0 16 0, Ev.clEnqueueWriteBuffer 0 0 16 1] ∧
    (execute_copy enqueue_failure (some (benchmark_of ⟨1⟩ ⟨2, 2, 2⟩)) Proc.init).alive
      = false ∧
    uploads (execute_copy enqueue_failure (some (benchmark_of ⟨1⟩ ⟨2, 2, 2⟩)) Proc.init).trace
      = [Ev.clEnqueueWriteBuffer 0 0 16 0] := by
  decide

/-- C6, evaluated. When `ocl_get_program` returns `NULL`, `setup_benchmark` returns `NULL`
and `main` goes on to call `measure_benchmark ("Copy", execute_copy, NULL)`: `execute_copy`
is invoked and faults on its first read through the null pointer. -/
theorem setup_failure_reaches_execute_copy :
    (setup_benchmark program_failure ⟨2⟩ ⟨-1, 1024, 1024⟩ Proc.init).1.isNone = true ∧
    (main program_failure ⟨2⟩ ⟨-1, 1024, 1024⟩).trace
      = [Ev.ocl_free, Ev.call "Copy", Ev.null_dereference] ∧
    (main program_failure ⟨2⟩ ⟨-1, 1024, 1024⟩).alive = false := by
  decide

/-- C9. In a run of `main` in which every checked call succeeds: every host image, every
single-device and multi-device result array, each of the three outer arrays and every
device input and output buffer that `setup_benchmark` made was made by exactly one call,
and is freed, respectively released, by exactly one call, which is a call of
`teardown_benchmark`; no block or buffer is freed or released twice, and nothing is freed
or released that was not allocated.  Nothing is left: no two allocations return the same
block, every block that any `g_malloc0` call of the run returned, other than the array
`kernels`, is freed by exactly one call, and every buffer that any `clCreateBuffer` call
returned is released by exactly one call.  The listed arrays are really allocated: a host
image and its two result arrays when `image_size` is not zero, the three outer arrays when
`num_images` is not zero. -/
theorem teardown_frees_once (env : Env) (ocl : opencl_desc) (settings : Settings)
    (henv : env.Succeeds) :
    ∃ b, (setup_benchmark env ocl settings Proc.init).1 = some b ∧
      (main env ocl settings).alive = true ∧
      (∀ x, b.OwnsBlock x →
        (mallocs (main env ocl settings).trace).count x = 1 ∧
        (frees (main env ocl settings).trace).count x = 1 ∧
        (releases (main env ocl settings).trace).count x = 0) ∧
      (∀ x, b.OwnsBuffer x →
        (buffers (main env ocl settings).trace).count x = 1 ∧
        (releases (main env ocl settings).trace).count x = 1 ∧
        (frees (main env ocl settings).trace).count x = 0) ∧
      (frees (main env ocl settings).trace ++ releases (main env ocl settings).trace).Nodup ∧
      (∀ x, x ∈ frees (main env ocl settings).trace →
        x ∈ mallocs (main env ocl settings).trace) ∧
      (∀ x, x ∈ releases (main env ocl settings).trace →
        x ∈ buffers (main env ocl settings).trace) ∧
      frees (main env ocl settings).trace
        = frees (teardown_benchmark env (some b) Proc.init).trace ∧
      releases (main env ocl settings).trace
        = releases (teardown_benchmark env (some b) Proc.init).trace ∧
      (mallocs (main env ocl settings).trace ++ buffers (main env ocl settings).trace).Nodup ∧
      (∀ x, x ∈ mallocs (main env ocl settings).trace → x ≠ b.kernels.base →
        (frees (main env ocl settings).trace).count x = 1) ∧
      (∀ x, x ∈ buffers (main env ocl settings).trace →
        (releases (main env ocl settings).trace).count x = 1) ∧
      (b.image_size ≠ 0 → ∀ i, i < b.num_images →
        (b.host_data.elem i).ptr ≠ 0 ∧ b.single_result.elem i ≠ 0 ∧
        b.multi_result.elem i ≠ 0) ∧
      (b.num_images ≠ 0 →
        b.host_data.base ≠ 0 ∧ b.single_result.base ≠ 0 ∧ b.multi_result.base ≠ 0) ∧
      (∀ d, d < b.ocl.num_devices → b.dev_data_in.elem d ≠ 0 ∧ b.dev_data_out.elem d ≠ 0) := by
  refine ⟨setup_result ocl settings 1, ?_, ?_, ?_⟩
  · simp only [Proc.init, setup_benchmark_eq henv.1]
  · rw [main_eq henv]
  have hM : mallocs (main env ocl settings).trace = mallocs (setup_trace ocl settings 1) := by
    rw [main_eq henv]
    exact sel_main_setup Ev.allocated env ocl settings (fun _ _ _ _ => rfl) (fun _ => rfl)
      (fun _ => rfl) (fun _ => rfl) rfl
      (sel_teardown_none _ _ (fun _ => rfl) (fun _ => rfl))
  have hB : buffers (main env ocl settings).trace = buffers (setup_trace ocl settings 1) := by
    rw [main_eq henv]
    exact sel_main_setup Ev.created env ocl settings (fun _ _ _ _ => rfl) (fun _ => rfl)
      (fun _ => rfl) (fun _ => rfl) rfl
      (sel_teardown_none _ _ (fun _ => rfl) (fun _ => rfl))
  have hF : frees (main env ocl settings).trace
      = frees (teardown_trace (setup_result ocl settings 1)) := by
    rw [main_eq henv]
    exact sel_main_teardown Ev.freed env ocl settings (fun _ _ _ _ => rfl) (fun _ => rfl)
      (fun _ => rfl) (fun _ => rfl) rfl
      (sel_setup_none _ _ _ _ (fun _ _ => rfl) (fun _ => rfl) (fun _ _ => rfl))
  have hR : releases (main env ocl settings).trace
      = releases (teardown_trace (setup_result ocl settings 1)) := by
    rw [main_eq henv]
    exact sel_main_teardown Ev.released env ocl settings (fun _ _ _ _ => rfl) (fun _ => rfl)
      (fun _ => rfl) (fun _ => rfl) rfl
      (sel_setup_none _ _ _ _ (fun _ _ => rfl) (fun _ => rfl) (fun _ _ => rfl))
  have hT : (teardown_benchmark env (some (setup_result ocl settings 1)) Proc.init).trace
      = teardown_trace (setup_result ocl settings 1) := by
    simp only [Proc.init, teardown_benchmark_eq henv.2.2.2, List.nil_append]
  have hRB : releases (teardown_trace (setup_result ocl settings 1))
      = buffers (setup_trace ocl settings 1) := by
    rw [releases_teardown_trace, buffers_setup_trace]
  have hN : ∀ x, (mallocs (setup_trace ocl settings 1)).count x
      + (buffers (setup_trace ocl settings 1)).count x ≤ 1 := fun x =>
    Nat.le_trans (count_names_ge x _)
      (List.nodup_iff_count_le_one.1 (seg_nodup (names_setup_seg ocl settings 1)) x)
  have hFM := count_frees_le_mallocs ocl settings
  have hMF := count_mallocs_eq ocl settings
  rw [hM, hB, hF, hR, hT, hRB]
  refine ⟨fun x hx => ?_, fun x hx => ?_, ?_, fun x hx => ?_, fun x hx => hx, rfl, rfl, ?_,
    fun x hx hk => ?_, fun x hx => ?_, fun hsz i hi => ?_, fun hn => ?_, fun d hd => ?_⟩
  · have h1 : 0 < (frees (teardown_trace (setup_result ocl settings 1))).count x :=
      List.count_pos_iff.2 (owned_block_freed ocl settings x hx)
    have h2 := hN x
    have h3 := hFM x
    omega
  · have h1 : 0 < (buffers (setup_trace ocl settings 1)).count x := by
      rw [← hRB]
      exact List.count_pos_iff.2 (owned_buffer_released ocl settings x hx)
    have h2 := hN x
    have h3 := hFM x
    omega
  · refine List.nodup_iff_count_le_one.2 (fun x => ?_)
    rw [List.count_append]
    have h2 := hN x
    have h3 := hFM x
    omega
  · have h1 : 0 < (frees (teardown_trace (setup_result ocl settings 1))).count x :=
      List.count_pos_iff.2 hx
    have h3 := hFM x
    exact List.count_pos_iff.1 (by omega)
  · refine List.nodup_iff_count_le_one.2 (fun x => ?_)
    rw [List.count_append]
    exact hN x
  · have h1 : 0 < (mallocs (setup_trace ocl settings 1)).count x := List.count_pos_iff.2 hx
    have h2 := hN x
    have h3 := hMF x
    have h4 : (nm_kernels ocl 1).count x = 0 := by
      refine List.count_eq_zero.2 (fun hmem => hk ?_)
      unfold nm_kernels malloc_names at hmem
      show x = malloc_ptr (1 + 1) (ocl.num_devices * sizeof_pointer)
      unfold malloc_ptr
      split at hmem
      · cases hmem
      · rename_i hsz
        rw [if_neg hsz]
        exact List.mem_singleton.1 hmem
    omega
  · have h1 : 0 < (buffers (setup_trace ocl settings 1)).count x := List.count_pos_iff.2 hx
    have h2 := hN x
    omega
  · have hi2 : i < resolve_num_images ocl settings := hi
    have hsz2 : compute_image_size settings ≠ 0 := hsz
    simp only [setup_result, hi2, if_true, malloc_ptr, if_neg hsz2]
    omega
  · have hn2 : resolve_num_images ocl settings * sizeof_pointer ≠ 0 := by
      have h0 : resolve_num_images ocl settings ≠ 0 := hn
      unfold sizeof_pointer
      omega
    simp only [setup_result, malloc_ptr, if_neg hn2]
    omega
  · have hd2 : d < ocl.num_devices := hd
    simp only [setup_result, hd2, if_true]
    omega

/-- C9, witness: one image of 2 by 2 elements on one device: the run allocates 13 blocks,
frees all of them but the array `kernels` (block 2), and creates and releases 2 buffers. -/
theorem teardown_frees_once_witness :
    Env.success.Succeeds ∧
    mallocs (main Env.success ⟨1⟩ ⟨1, 2, 2⟩).trace = [1, 2, 4, 5, 6, 7, 8, 9, 10, 11, 12, 13, 14] ∧
    frees (main Env.success ⟨1⟩ ⟨1, 2, 2⟩).trace = [10, 11, 12, 6, 4, 5, 13, 14, 7, 8, 9, 1] ∧
    buffers (main Env.success ⟨1⟩ ⟨1, 2, 2⟩).trace = [15, 16] ∧
    releases (main Env.success ⟨1⟩ ⟨1, 2, 2⟩).trace = [15, 16] ∧
    (frees (main Env.success ⟨1⟩ ⟨1, 2, 2⟩).trace
      ++ releases (main Env.success ⟨1⟩ ⟨1, 2, 2⟩).trace).Nodup := by
  obtain ⟨b, _, _, _, _, h, _⟩ :=
    teardown_frees_once Env.success ⟨1⟩ ⟨1, 2, 2⟩ success_succeeds
  exact ⟨success_succeeds, by rfl, by rfl, by rfl, by rfl, h⟩

end OclCopyVsRef
